import Mathlib

/-!
GLGizmoHollow: selection, placement, deletion and history of drainage holes.

A shallow embedding of the interaction logic of
src/slic3r/GUI/Gizmos/GLGizmoHollow.cpp.

Conventions of the embedding.

* The gizmo is described while it is attached to a model object
  (m_model_object is non-null); the fields of the model object that the code
  touches (sla_drain_holes and the hollowing keys of its config) are fields of
  State.
* float and double values are rationals: rounding is not modelled.
* An access outside the bounds of a std::vector is the fault out_of_range, a
  loop that does not finish is the fault no_termination. Every operation
  returns Except Fault.
* The cursor of delete_selected_points is an unsigned int: its arithmetic is
  taken modulo 2^32.
* Collaborators that are not part of the file (mesh raycaster, camera,
  selection rectangle, ImGui widgets, Plater snapshots) appear as the inputs
  Env and UiFrame, or as definitions marked as modelled from the spec.
-/

namespace GLGizmoHollow

/-! ## Data model -/

/-- Vec3f / Vec3d: three coordinates. -/
structure Vec3 where
  x : ℚ
  y : ℚ
  z : ℚ
deriving DecidableEq

/-- Vec3f::Zero(). -/
def Vec3.Zero : Vec3 := ⟨0, 0, 0⟩

/-- Componentwise sum of two vectors. -/
def Vec3.add (a b : Vec3) : Vec3 := ⟨a.x + b.x, a.y + b.y, a.z + b.z⟩

/-- Unary minus of a vector. -/
def Vec3.neg (a : Vec3) : Vec3 := ⟨-a.x, -a.y, -a.z⟩

/-- Scalar multiple k * a. -/
def Vec3.smul (k : ℚ) (a : Vec3) : Vec3 := ⟨k * a.x, k * a.y, k * a.z⟩

/-- Dot product. -/
def Vec3.dot (a b : Vec3) : ℚ := a.x * b.x + a.y * b.y + a.z * b.z

/-- Vec2d: a mouse position. -/
structure Vec2 where
  x : ℚ
  y : ℚ
deriving DecidableEq

/-- sla::DrainHole, built by emplace_back(pos, normal, radius, height). -/
structure DrainHole where
  pos : Vec3
  normal : Vec3
  radius : ℚ
  height : ℚ
deriving DecidableEq

/-- Ways in which an operation can leave defined behaviour. -/
inductive Fault where
  | out_of_range
  | no_termination
deriving DecidableEq

/-- The hollowing keys of the config of the model object; none when the
object config does not have the key (object_cfg.has(key) is false). -/
structure ObjectConfig where
  hollowing_enable : Option Bool
  hollowing_min_thickness : Option ℚ
  hollowing_quality : Option ℚ
  hollowing_closing_distance : Option ℚ
deriving DecidableEq

/-- Modelled from the spec: GLSelectionRectangle::EState is not part of the
source file. Off means that no rectangle gesture is active. -/
inductive EState where
  | Off
  | Select
  | Deselect
deriving DecidableEq

/-- Modelled from the spec: the GLSelectionRectangle tracker (not part of the
source file), reduced to its mode and its two corners. -/
structure GLSelectionRectangle where
  m_state : EState
  m_start_corner : Vec2
  m_end_corner : Vec2
deriving DecidableEq

/-- Modelled from the spec: ClippingPlane (normal and offset); the class is not
part of the source file. -/
structure ClippingPlane where
  normal : Vec3
  offset : ℚ
deriving DecidableEq

/-- The labels of the snapshots the file takes. -/
inductive SnapshotName where
  | add_drainage_hole
  | delete_drainage_hole
  | hollowing_parameter_change
  | change_drainage_hole_diameter
  | move_drainage_hole
deriving DecidableEq

/-- Modelled from the spec: what a history snapshot observes, namely the holes
and config of the model object and the fields that on_save serialises. -/
structure Snapshot where
  name : SnapshotName
  sla_drain_holes : List DrainHole
  config : ObjectConfig
  m_clipping_plane_distance : ℚ
  m_clipping_plane : ClippingPlane
  m_new_hole_radius : ℚ
  m_new_hole_height : ℚ
  m_selected : List Bool
  m_selection_empty : Bool
deriving DecidableEq

/-- The model object fields, the members of GLGizmoHollow that the modelled
functions use, and the two observable effects on collaborators: the list of
snapshots taken so far (oldest first) and whether set_as_dirty was called. -/
structure State where
  sla_drain_holes : List DrainHole
  config : ObjectConfig
  m_selected : List Bool
  m_selection_empty : Bool
  m_hover_id : Int
  m_new_hole_radius : ℚ
  m_new_hole_height : ℚ
  m_wait_for_up_event : Bool
  m_selection_rectangle : GLSelectionRectangle
  m_clipping_plane_distance : ℚ
  m_clipping_plane : ClippingPlane
  m_active_instance_bb_radius : ℚ
  m_z_shift : ℚ
  m_hole_before_drag : Vec3
  m_offset_stash : ℚ
  m_quality_stash : ℚ
  m_closing_d_stash : ℚ
  m_holes_stash : List DrainHole
  m_enable_hollowing : Bool
  m_show_supports : Bool
  m_print_object_idx : Int
  m_print_objects_count : Int
  history : List Snapshot
  dirty : Bool
  hollow_requests : Nat
  settings_item_updates : Nat
deriving DecidableEq

/-- What the collaborators answer during one call: the raycaster query
unproject_on_mesh for a mouse position, the indices returned by
m_selection_rectangle.stop_dragging, the indices returned by
get_unobscured_idxs, the camera forward direction, the offset of the active
instance, the normalisation done by the ClippingPlane constructor, the
constant HoleStickOutLength of the header, and the values the presets give
to the hollowing keys that the object config lacks. -/
structure Env where
  HoleStickOutLength : ℚ
  unproject : Vec2 → Option (Vec3 × Vec3)
  rectangle_idxs : List Nat
  unobscured_idxs : List Nat
  camera_dir_forward : Vec3
  instance_offset : Vec3
  normalized : Vec3 → Vec3
  preset_hollowing_enable : Bool
  preset_hollowing_min_thickness : ℚ
  preset_hollowing_quality : ℚ
  preset_hollowing_closing_distance : ℚ

/-- SLAGizmoEventType; Other stands for the values the function never tests. -/
inductive SLAGizmoEventType where
  | LeftDown
  | LeftUp
  | RightDown
  | Dragging
  | Delete
  | SelectAll
  | ShiftUp
  | AltUp
  | MouseWheelUp
  | MouseWheelDown
  | ResetClippingPlane
  | Other
deriving DecidableEq

/-- The enumerator AllPoints of the header (NoPoints - 1). -/
def AllPoints : Int := -2

/-- The enumerator NoPoints of the header. -/
def NoPoints : Int := -1

/-- Width of unsigned int. -/
def UINT_MOD : Nat := 2 ^ 32

/-! ## Snapshots -/

/-- Modelled from the spec: Plater::TakeSnapshot is not part of the source
file; takeSnapshot(label) synchronously captures the current persisted state,
here by appending what it observes to the history. -/
def take_snapshot (name : SnapshotName) (s : State) : State :=
  { s with history := s.history ++ [
      { name := name
        sla_drain_holes := s.sla_drain_holes
        config := s.config
        m_clipping_plane_distance := s.m_clipping_plane_distance
        m_clipping_plane := s.m_clipping_plane
        m_new_hole_radius := s.m_new_hole_radius
        m_new_hole_height := s.m_new_hole_height
        m_selected := s.m_selected
        m_selection_empty := s.m_selection_empty }] }

/-- m_parent.set_as_dirty(). -/
def set_as_dirty (s : State) : State := { s with dirty := true }

/-! ## Selection -/

/-- select_point(int i). For AllPoints and NoPoints every flag is overwritten
and AllPoints reads sla_drain_holes[0]; otherwise m_selected is padded with
false up to index i, flag i is set and sla_drain_holes[i] is read. A negative
i other than the two enumerators converts to a huge size_t, for which the
padding loop cannot finish. -/
def select_point (i : Int) (s : State) : Except Fault State :=
  if i = AllPoints ∨ i = NoPoints then
    let s1 : State :=
      { s with m_selected := List.replicate s.m_selected.length (decide (i = AllPoints))
               m_selection_empty := decide (i = NoPoints) }
    if i = AllPoints then
      match s1.sla_drain_holes[0]? with
      | none => .error .out_of_range
      | some h => .ok { s1 with m_new_hole_radius := h.radius, m_new_hole_height := h.height }
    else .ok s1
  else if i < 0 then .error .no_termination
  else
    let n := i.toNat
    let padded := s.m_selected ++ List.replicate (n + 1 - s.m_selected.length) false
    match s.sla_drain_holes[n]? with
    | none => .error .out_of_range
    | some h =>
      .ok { s with m_selected := padded.set n true
                   m_selection_empty := false
                   m_new_hole_radius := h.radius
                   m_new_hole_height := h.height }

/-- The loop of unselect_point: the flag starts true and the first selected
entry sets it to false and leaves the loop. -/
def selection_scan : List Bool → Bool
  | [] => true
  | sel :: rest => if sel then false else selection_scan rest

/-- unselect_point(int i). -/
def unselect_point (i : Int) (s : State) : Except Fault State :=
  if 0 ≤ i ∧ i.toNat < s.m_selected.length then
    let sel := s.m_selected.set i.toNat false
    .ok { s with m_selected := sel, m_selection_empty := selection_scan sel }
  else .error .out_of_range

/-- reload_cache(): m_selected gets one false per hole; no other member is
written. -/
def reload_cache (s : State) : State :=
  { s with m_selected := List.replicate s.sla_drain_holes.length false }

/-! ## Deletion -/

/-- The for loop of delete_selected_points, one iteration per unit of fuel.
The condition compares the cursor with the size of the hole vector, the body
reads m_selected[idx]; on a selected entry both vectors lose position idx and
the cursor is decremented (modulo 2^32) before the increment of the loop. -/
def delete_loop : Nat → Nat → List Bool → List DrainHole →
    Except Fault (List Bool × List DrainHole)
  | 0, _, _, _ => .error .no_termination
  | fuel + 1, idx, sel, holes =>
    if idx < holes.length then
      match sel[idx]? with
      | none => .error .out_of_range
      | some true =>
        let sel1 := sel.eraseIdx idx
        let holes1 := holes.eraseIdx idx
        let idx1 := (idx + UINT_MOD - 1) % UINT_MOD
        delete_loop fuel ((idx1 + 1) % UINT_MOD) sel1 holes1
      | some false => delete_loop fuel ((idx + 1) % UINT_MOD) sel holes
    else .ok (sel, holes)

/-- delete_selected_points(): snapshot, erase loop, select_point(NoPoints). -/
def delete_selected_points (fuel : Nat) (s : State) : Except Fault State :=
  let s1 := take_snapshot .delete_drainage_hole s
  match delete_loop fuel 0 s1.m_selected s1.sla_drain_holes with
  | .error e => .error e
  | .ok (sel, holes) => select_point NoPoints { s1 with m_selected := sel, sla_drain_holes := holes }

/-! ## Clipping plane -/

/-- Modelled from the spec: the constructor ClippingPlane(direction, offset),
which stores the normalised direction and the offset. -/
def ClippingPlane.make (env : Env) (direction : Vec3) (offset : ℚ) : ClippingPlane :=
  { normal := env.normalized direction, offset := offset }

/-- update_clipping_plane(bool keep_normal). -/
def update_clipping_plane (env : Env) (keep_normal : Bool) (s : State) : State :=
  let normal :=
    if keep_normal = true ∧ s.m_clipping_plane.normal ≠ Vec3.Zero then s.m_clipping_plane.normal
    else Vec3.neg env.camera_dir_forward
  let center := Vec3.add env.instance_offset ⟨0, 0, s.m_z_shift⟩
  let dist := Vec3.dot normal center
  let plane := ClippingPlane.make env normal
    (dist - (-s.m_active_instance_bb_radius)
      - s.m_clipping_plane_distance * 2 * s.m_active_instance_bb_radius)
  set_as_dirty { s with m_clipping_plane := plane }

/-! ## Selection rectangle -/

/-- m_selection_rectangle.is_dragging(). -/
def GLSelectionRectangle.is_dragging (r : GLSelectionRectangle) : Bool :=
  decide (r.m_state ≠ EState.Off)

/-- Modelled from the spec: start_dragging begins a rectangle gesture in the
given mode at the mouse position. -/
def GLSelectionRectangle.start_dragging (mouse_position : Vec2) (state : EState)
    (_r : GLSelectionRectangle) : GLSelectionRectangle :=
  { m_state := state, m_start_corner := mouse_position, m_end_corner := mouse_position }

/-- Modelled from the spec: dragging moves the free corner of the rectangle. -/
def GLSelectionRectangle.dragging (mouse_position : Vec2)
    (r : GLSelectionRectangle) : GLSelectionRectangle :=
  { r with m_end_corner := mouse_position }

/-- Modelled from the spec: stop_dragging finalises the gesture; the indices
it returns are the input rectangle_idxs of Env. -/
def GLSelectionRectangle.stop_dragging (r : GLSelectionRectangle) : GLSelectionRectangle :=
  { r with m_state := EState.Off }

/-! ## Events -/

/-- Reading v[i] for an int index i. -/
def index_int {α : Type} (v : List α) (i : Int) : Option α :=
  if 0 ≤ i then v[i.toNat]? else none

/-- Wraps the state left by a handler that then executes return true. -/
def handled (r : Except Fault State) : Except Fault (Bool × State) :=
  match r with
  | .error e => .error e
  | .ok s => .ok (true, s)

/-- The last loop of the rectangle branch of gizmo_event: for every idx
returned by get_unobscured_idxs the point points_idxs[idx] is unselected (mode
Deselect) or selected (any other mode). -/
def rectangle_apply (rectangle_status : EState) (points_idxs : List Nat) :
    List Nat → State → Except Fault State
  | [], s => .ok s
  | idx :: rest, s =>
    match points_idxs[idx]? with
    | none => .error .out_of_range
    | some p =>
      match (if rectangle_status = EState.Deselect then unselect_point (p : Int) s
             else select_point (p : Int) s) with
      | .error e => .error e
      | .ok s1 => rectangle_apply rectangle_status points_idxs rest s1

/-- gizmo_event(action, mouse_position, shift_down, alt_down, control_down):
the flag tells whether the event was handled. The chain of early returns of
the source is a chain of else-if; the LeftUp test with m_wait_for_up_event
falls through to return false when the flag is not set, like every action
that matches no later test. -/
def gizmo_event (env : Env) (fuel : Nat) (action : SLAGizmoEventType) (mouse_position : Vec2)
    (shift_down alt_down control_down : Bool) (s : State) : Except Fault (Bool × State) :=
  if action = .LeftDown ∧ (shift_down = true ∨ alt_down = true ∨ control_down = true) then
    if s.m_hover_id = -1 then
      if shift_down = true ∨ alt_down = true then
        let mode := if shift_down = true then EState.Select else EState.Deselect
        let rect := s.m_selection_rectangle.start_dragging mouse_position mode
        .ok (true, { s with m_selection_rectangle := rect })
      else .ok (true, s)
    else
      match index_int s.m_selected s.m_hover_id with
      | none => .error .out_of_range
      | some true => handled (unselect_point s.m_hover_id s)
      | some false =>
        if alt_down = false then handled (select_point s.m_hover_id s) else .ok (true, s)
  else if action = .LeftDown ∧ s.m_selection_rectangle.is_dragging = false
      ∧ shift_down = false then
    if s.m_hover_id ≠ -1 then .ok (false, s)
    else if s.m_selection_empty = true then
      match env.unproject mouse_position with
      | some (hit, normal) =>
        let s1 := take_snapshot .add_drainage_hole s
        let hole : DrainHole :=
          { pos := Vec3.add hit (Vec3.smul env.HoleStickOutLength normal)
            normal := Vec3.neg normal
            radius := s1.m_new_hole_radius
            height := s1.m_new_hole_height + env.HoleStickOutLength }
        let s2 := { s1 with sla_drain_holes := s1.sla_drain_holes ++ [hole]
                            m_selected := s1.m_selected ++ [false] }
        .ok (true, { set_as_dirty s2 with m_wait_for_up_event := true })
      | none => .ok (false, s)
    else handled (select_point NoPoints s)
  else if (action = .LeftUp ∨ action = .ShiftUp ∨ action = .AltUp)
      ∧ s.m_selection_rectangle.is_dragging = true then
    let rectangle_status := s.m_selection_rectangle.m_state
    let points_idxs := env.rectangle_idxs
    let s1 := { s with m_selection_rectangle := s.m_selection_rectangle.stop_dragging }
    if points_idxs.all (fun idx => decide (idx < s1.sla_drain_holes.length)) = true then
      handled (rectangle_apply rectangle_status points_idxs env.unobscured_idxs s1)
    else .error .out_of_range
  else if action = .LeftUp ∧ s.m_wait_for_up_event = true then
    .ok (true, { s with m_wait_for_up_event := false })
  else if action = .Dragging then
    if s.m_wait_for_up_event = true then .ok (true, s)
    else if s.m_selection_rectangle.is_dragging = true then
      let rect := s.m_selection_rectangle.dragging mouse_position
      .ok (true, { s with m_selection_rectangle := rect })
    else .ok (false, s)
  else if action = .Delete then handled (delete_selected_points fuel s)
  else if action = .RightDown then
    if s.m_hover_id ≠ -1 then
      match select_point NoPoints s with
      | .error e => .error e
      | .ok s1 =>
        match select_point s1.m_hover_id s1 with
        | .error e => .error e
        | .ok s2 => handled (delete_selected_points fuel s2)
    else .ok (false, s)
  else if action = .SelectAll then handled (select_point AllPoints s)
  else if action = .MouseWheelUp ∧ control_down = true then
    .ok (true, update_clipping_plane env true
      { s with m_clipping_plane_distance := min 1 (s.m_clipping_plane_distance + 1 / 100) })
  else if action = .MouseWheelDown ∧ control_down = true then
    .ok (true, update_clipping_plane env true
      { s with m_clipping_plane_distance := max 0 (s.m_clipping_plane_distance - 1 / 100) })
  else if action = .ResetClippingPlane then .ok (true, update_clipping_plane env false s)
  else .ok (false, s)

/-! ## Dragging a hole -/

/-- Writing v[i] for an int index i. -/
def update_int {α : Type} (v : List α) (i : Int) (f : α → α) : Except Fault (List α) :=
  match index_int v i with
  | none => .error .out_of_range
  | some a => .ok (v.set i.toNat (f a))

/-- on_update(data): the hovered hole follows the raycast hit; without an
intersection the function returns at once. -/
def on_update (env : Env) (mouse_pos : Vec2) (s : State) : Except Fault State :=
  if s.m_hover_id ≠ -1 then
    match env.unproject mouse_pos with
    | none => .ok s
    | some (hit, normal) =>
      match update_int s.sla_drain_holes s.m_hover_id (fun h =>
          { h with pos := Vec3.add hit (Vec3.smul env.HoleStickOutLength normal)
                   normal := Vec3.neg normal }) with
      | .error e => .error e
      | .ok holes => .ok { s with sla_drain_holes := holes }
  else .ok s

/-- on_start_dragging(). -/
def on_start_dragging (s : State) : Except Fault State :=
  if s.m_hover_id ≠ -1 then
    match select_point NoPoints s with
    | .error e => .error e
    | .ok s1 =>
      match select_point s1.m_hover_id s1 with
      | .error e => .error e
      | .ok s2 =>
        match index_int s2.sla_drain_holes s2.m_hover_id with
        | none => .error .out_of_range
        | some h => .ok { s2 with m_hole_before_drag := h.pos }
  else .ok { s with m_hole_before_drag := Vec3.Zero }

/-- on_stop_dragging(). -/
def on_stop_dragging (s : State) : Except Fault State :=
  if s.m_hover_id ≠ -1 then
    match index_int s.sla_drain_holes s.m_hover_id with
    | none => .error .out_of_range
    | some h =>
      let backup := h.pos
      if s.m_hole_before_drag ≠ Vec3.Zero ∧ backup ≠ s.m_hole_before_drag then
        let rolled := s.sla_drain_holes.set s.m_hover_id.toNat { h with pos := s.m_hole_before_drag }
        let s1 := take_snapshot .move_drainage_hole { s with sla_drain_holes := rolled }
        match update_int s1.sla_drain_holes s1.m_hover_id (fun x => { x with pos := backup }) with
        | .error e => .error e
        | .ok holes => .ok { s1 with sla_drain_holes := holes, m_hole_before_drag := Vec3.Zero }
      else .ok { s with m_hole_before_drag := Vec3.Zero }
  else .ok { s with m_hole_before_drag := Vec3.Zero }

/-! ## The input window -/

/-- What one ImGui slider reports in a frame: the value it writes into the
bound float (none when it leaves the float alone), IsItemClicked,
IsItemEdited and IsItemDeactivatedAfterEdit. -/
structure SliderFrame where
  set_to : Option ℚ
  clicked : Bool
  edited : Bool
  released : Bool
deriving DecidableEq

/-- What the widgets of the window report in one pass over the window. A
checkbox reports the new value when it was toggled. -/
structure UiFrame where
  enable_checkbox : Option Bool
  preview_button : Bool
  offset_slider : SliderFrame
  quality_slider : SliderFrame
  closing_d_slider : SliderFrame
  hole_diameter_slider : SliderFrame
  hole_depth_slider : SliderFrame
  remove_selected_button : Bool
  remove_all_button : Bool
  clipping_slider : Option ℚ
  show_supports_checkbox : Option Bool
  toggle_sla_auxiliaries_visibility : Bool
deriving DecidableEq

/-- ImGui::SliderFloat(label, &v, ...): the float after the call. -/
def SliderFrame.apply (w : SliderFrame) (v : ℚ) : ℚ :=
  match w.set_to with
  | some v1 => v1
  | none => v

/-- get_config_options for one key: the object config when it has the key,
the presets otherwise. -/
def get_config_option {α : Type} (object_value : Option α) (preset_value : α) : α :=
  match object_value with
  | some v => v
  | none => preset_value

/-- The loop of the edited case of the hole sliders, over the indices idx of
m_selected: a selected entry writes radius and height of sla_drain_holes[idx]. -/
def edit_selected_holes (radius height : ℚ) (sel : List Bool) :
    List Nat → List DrainHole → Except Fault (List DrainHole)
  | [], holes => .ok holes
  | idx :: rest, holes =>
    if sel[idx]? = some true then
      match holes[idx]? with
      | none => .error .out_of_range
      | some h =>
        edit_selected_holes radius height sel rest
          (holes.set idx { h with radius := radius, height := height })
    else edit_selected_holes radius height sel rest holes

/-- The loop of the deactivated case of the hole sliders, over the indices i
of m_holes_stash: the first selected entry gives the stashed hole whose radius
and height are shown to the snapshot. -/
def first_selected_stash (sel : List Bool) (stash : List DrainHole) :
    List Nat → Except Fault (Option DrainHole)
  | [] => .ok none
  | i :: rest =>
    match sel[i]? with
    | none => .error .out_of_range
    | some true =>
      match stash[i]? with
      | none => .error .out_of_range
      | some h => .ok (some h)
    | some false => first_selected_stash sel stash rest

/-- The three sliders of the hollowing parameters and the commit protocol
that follows them (the code between get_config_options and disabled_end). -/
def render_config_sliders (env : Env) (ui : UiFrame) (s : State) : State :=
  let offset := ui.offset_slider.apply
    (get_config_option s.config.hollowing_min_thickness env.preset_hollowing_min_thickness)
  let quality := ui.quality_slider.apply
    (get_config_option s.config.hollowing_quality env.preset_hollowing_quality)
  let closing_d := ui.closing_d_slider.apply
    (get_config_option s.config.hollowing_closing_distance env.preset_hollowing_closing_distance)
  let slider_clicked :=
    ui.offset_slider.clicked || ui.quality_slider.clicked || ui.closing_d_slider.clicked
  let slider_edited :=
    ui.offset_slider.edited || ui.quality_slider.edited || ui.closing_d_slider.edited
  let slider_released :=
    ui.offset_slider.released || ui.quality_slider.released || ui.closing_d_slider.released
  let s1 : State :=
    if slider_clicked = true then
      { s with m_offset_stash := offset, m_quality_stash := quality, m_closing_d_stash := closing_d }
    else s
  if slider_edited = true ∨ slider_released = true then
    let s2 : State :=
      if slider_released = true then
        let stashed : ObjectConfig :=
          { s1.config with hollowing_min_thickness := some s1.m_offset_stash
                           hollowing_quality := some s1.m_quality_stash
                           hollowing_closing_distance := some s1.m_closing_d_stash }
        take_snapshot .hollowing_parameter_change { s1 with config := stashed }
      else s1
    let live : ObjectConfig :=
      { s2.config with hollowing_min_thickness := some offset
                       hollowing_quality := some quality
                       hollowing_closing_distance := some closing_d }
    let s3 : State := { s2 with config := live }
    if slider_released = true then
      { s3 with settings_item_updates := s3.settings_item_updates + 1 }
    else s3
  else s1

/-- The two sliders of the hole diameter and depth and the code that follows
them up to the snapshot of the deactivated case. -/
def render_hole_sliders (env : Env) (ui : UiFrame) (s : State) : Except Fault State :=
  let diameter_upper_cap : ℚ := 20
  let s1 : State :=
    if s.m_new_hole_radius > diameter_upper_cap then
      { s with m_new_hole_radius := diameter_upper_cap }
    else s
  let s2 : State :=
    { s1 with m_new_hole_radius := ui.hole_diameter_slider.apply s1.m_new_hole_radius }
  let depth := ui.hole_depth_slider.apply (s2.m_new_hole_height - env.HoleStickOutLength)
  let s3 : State := { s2 with m_new_hole_height := depth + env.HoleStickOutLength }
  let clicked := ui.hole_diameter_slider.clicked || ui.hole_depth_slider.clicked
  let edited := ui.hole_diameter_slider.edited || ui.hole_depth_slider.edited
  let deactivated := ui.hole_diameter_slider.released || ui.hole_depth_slider.released
  if s3.m_selection_empty = false then
    let s4 : State :=
      if clicked = true then { s3 with m_holes_stash := s3.sla_drain_holes } else s3
    let after_edit : Except Fault (List DrainHole) :=
      if edited = true then
        edit_selected_holes s4.m_new_hole_radius s4.m_new_hole_height s4.m_selected
          (List.range s4.m_selected.length) s4.sla_drain_holes
      else .ok s4.sla_drain_holes
    match after_edit with
    | .error e => .error e
    | .ok holes =>
      let s5 : State := { s4 with sla_drain_holes := holes }
      if deactivated = true then
        let new_holes := s5.sla_drain_holes
        let backup_rad := s5.m_new_hole_radius
        let backup_hei := s5.m_new_hole_height
        match first_selected_stash s5.m_selected s5.m_holes_stash
            (List.range s5.m_holes_stash.length) with
        | .error e => .error e
        | .ok found =>
          let s6 : State := { s5 with sla_drain_holes := s5.m_holes_stash }
          let s7 : State :=
            match found with
            | some h => { s6 with m_new_hole_radius := h.radius, m_new_hole_height := h.height }
            | none => s6
          let s8 := take_snapshot .change_drainage_hole_diameter s7
          .ok { s8 with m_new_hole_radius := backup_rad
                        m_new_hole_height := backup_hei
                        sla_drain_holes := new_holes }
      else .ok s5
  else .ok s3

/-- One pass over the window, from RENDER_AGAIN to the handling of the two
remove buttons. The flags tell whether a remove button was pressed and
whether force_refresh is set at the end of the pass. The button that resets
the direction only queues a call for later and is left out. -/
def render_pass (env : Env) (fuel : Nat) (ui : UiFrame) (s : State) :
    Except Fault (Bool × Bool × State) :=
  let s0 : State :=
    { s with m_enable_hollowing :=
        get_config_option s.config.hollowing_enable env.preset_hollowing_enable }
  let s1 : State :=
    match ui.enable_checkbox with
    | some b =>
      { s0 with m_enable_hollowing := b
                config := { s0.config with hollowing_enable := some b }
                settings_item_updates := s0.settings_item_updates + 1 }
    | none => s0
  let s2 : State :=
    if ui.preview_button = true then { s1 with hollow_requests := s1.hollow_requests + 1 }
    else s1
  let s3 := render_config_sliders env ui s2
  match render_hole_sliders env ui s3 with
  | .error e => .error e
  | .ok s4 =>
    let s5 : State :=
      match ui.clipping_slider with
      | some d => update_clipping_plane env true { s4 with m_clipping_plane_distance := d }
      | none => s4
    let s6 : State :=
      match ui.show_supports_checkbox with
      | some b => { s5 with m_show_supports := b }
      | none => s5
    let force_refresh := ui.toggle_sla_auxiliaries_visibility
    if ui.remove_selected_button = true ∨ ui.remove_all_button = true then
      let s7 := set_as_dirty s6
      let after_remove_all : Except Fault State :=
        if ui.remove_all_button = true then
          match select_point AllPoints s7 with
          | .error e => .error e
          | .ok t => delete_selected_points fuel t
        else .ok s7
      match after_remove_all with
      | .error e => .error e
      | .ok s8 =>
        let after_remove_selected : Except Fault State :=
          if ui.remove_selected_button = true then delete_selected_points fuel s8 else .ok s8
        match after_remove_selected with
        | .error e => .error e
        | .ok s9 => .ok (true, false, s9)
    else .ok (false, force_refresh, s6)

/-- on_render_input_window: a first pass with the widget reports ui and, when
a remove button was pressed in it, the jump to RENDER_AGAIN for a second and
last pass with the reports ui_again; set_as_dirty when force_refresh is set. -/
def on_render_input_window (env : Env) (fuel : Nat) (ui ui_again : UiFrame) (s : State) :
    Except Fault State :=
  match render_pass env fuel ui s with
  | .error e => .error e
  | .ok (removed, force_refresh, s1) =>
    if removed = true then
      match render_pass env fuel ui_again s1 with
      | .error e => .error e
      | .ok (_, force_refresh_again, s2) =>
        .ok (if force_refresh_again = true then set_as_dirty s2 else s2)
    else .ok (if force_refresh = true then set_as_dirty s1 else s1)

/-! ## Reference notions used by the statements -/

/-- The holes whose selection flag is false, in their original order: what
the spec asks deletion to retain. -/
def unselected_holes (sel : List Bool) (holes : List DrainHole) : List DrainHole :=
  ((sel.zip holes).filter (fun p => !p.1)).map Prod.snd

/-- Whether no entry of a selection vector is true. -/
def nothing_selected (sel : List Bool) : Prop := ∀ b ∈ sel, b = false

/-- The cached flag tells the truth: m_selection_empty is true exactly when
no entry of m_selected is true. -/
def selection_empty_in_sync (s : State) : Prop :=
  s.m_selection_empty = true ↔ nothing_selected s.m_selected

/-- Whether hole j is among the points that get_unobscured_idxs reports: the
raycaster answers with positions k in the list of points inside the
rectangle, and position k of that list is the hole rectangle_idxs[k]. -/
def reported_unobscured (env : Env) (j : Nat) : Prop :=
  ∃ k ∈ env.unobscured_idxs, env.rectangle_idxs[k]? = some j

/-- The host calling on_update once per mouse position of a drag. -/
def drag_updates (env : Env) : List Vec2 → State → Except Fault State
  | [], s => .ok s
  | mouse_pos :: rest, s =>
    match on_update env mouse_pos s with
    | .error e => .error e
    | .ok s1 => drag_updates env rest s1

/-- One mouse wheel event with control held: its direction and what else the
canvas passes along. -/
structure WheelEvent where
  up : Bool
  mouse_position : Vec2
  shift_down : Bool
  alt_down : Bool

/-- The canvas delivering a sequence of wheel events with control held. -/
def wheel_run (env : Env) (fuel : Nat) : List WheelEvent → State → Except Fault State
  | [], s => .ok s
  | e :: rest, s =>
    match gizmo_event env fuel (if e.up = true then .MouseWheelUp else .MouseWheelDown)
        e.mouse_position e.shift_down e.alt_down true s with
    | .error err => .error err
    | .ok (_, s1) => wheel_run env fuel rest s1

/-! ## Concrete inputs -/

/-- A gizmo attached to an object without holes: nothing selected, nothing
hovered, no gesture active, empty history. -/
def State.blank : State :=
  { sla_drain_holes := []
    config := { hollowing_enable := none, hollowing_min_thickness := none
                hollowing_quality := none, hollowing_closing_distance := none }
    m_selected := []
    m_selection_empty := true
    m_hover_id := -1
    m_new_hole_radius := 2
    m_new_hole_height := 6
    m_wait_for_up_event := false
    m_selection_rectangle := { m_state := EState.Off, m_start_corner := ⟨0, 0⟩, m_end_corner := ⟨0, 0⟩ }
    m_clipping_plane_distance := 0
    m_clipping_plane := { normal := Vec3.Zero, offset := 0 }
    m_active_instance_bb_radius := 10
    m_z_shift := 0
    m_hole_before_drag := Vec3.Zero
    m_offset_stash := 0
    m_quality_stash := 0
    m_closing_d_stash := 0
    m_holes_stash := []
    m_enable_hollowing := false
    m_show_supports := false
    m_print_object_idx := -1
    m_print_objects_count := 0
    history := []
    dirty := false
    hollow_requests := 0
    settings_item_updates := 0 }

/-- A scene in which every ray hits the mesh at (1, 2, 3) on a facet with
normal (0, 0, 1), the rectangle holds points 0 and 2 and only the first of
them is unobscured. -/
def Env.sample : Env :=
  { HoleStickOutLength := 1
    unproject := fun _ => some (⟨1, 2, 3⟩, ⟨0, 0, 1⟩)
    rectangle_idxs := [0, 2]
    unobscured_idxs := [0]
    camera_dir_forward := ⟨0, 0, -1⟩
    instance_offset := ⟨0, 0, 0⟩
    normalized := fun v => v
    preset_hollowing_enable := true
    preset_hollowing_min_thickness := 3
    preset_hollowing_quality := 1 / 2
    preset_hollowing_closing_distance := 2 }

/-- The hole number k of the concrete inputs, at (k, 0, 0). -/
def sample_hole (k : ℚ) : DrainHole :=
  { pos := ⟨k, 0, 0⟩, normal := ⟨0, 0, -1⟩, radius := 2, height := 7 }

/-- Four holes of which the first, the second and the last are selected. -/
def State.four_holes : State :=
  { State.blank with
    sla_drain_holes := [sample_hole 0, sample_hole 1, sample_hole 2, sample_hole 3]
    m_selected := [true, true, false, true]
    m_selection_empty := false }

/-- One unselected hole. -/
def State.one_hole : State :=
  { State.blank with sla_drain_holes := [sample_hole 0], m_selected := [false] }

/-- Two holes, both selected. -/
def State.two_selected : State :=
  { State.blank with
    sla_drain_holes := [sample_hole 0, sample_hole 1]
    m_selected := [true, true]
    m_selection_empty := false }

/-- A clip distance of 0.995, one wheel step below the upper bound. -/
def State.nearly_open : State :=
  { State.blank with m_clipping_plane_distance := 199 / 200 }

/-- Two unselected holes, the second one hovered; the first hole sits at the
origin, the second at (1, 0, 0). -/
def State.hover_second : State :=
  { State.blank with
    sla_drain_holes := [sample_hole 0, sample_hole 1]
    m_selected := [false, false]
    m_hover_id := 1 }

/-- The same two holes with the first one, at the origin, hovered. -/
def State.hover_origin : State :=
  { State.hover_second with m_hover_id := 0 }

/-- Three unselected holes while a rectangle gesture in Select mode is
active. -/
def State.rectangle_select : State :=
  { State.blank with
    sla_drain_holes := [sample_hole 0, sample_hole 1, sample_hole 2]
    m_selected := [false, false, false]
    m_selection_rectangle :=
      { m_state := EState.Select, m_start_corner := ⟨0, 0⟩, m_end_corner := ⟨9, 9⟩ } }

/-- A slider that nobody touches. -/
def SliderFrame.idle : SliderFrame :=
  { set_to := none, clicked := false, edited := false, released := false }

/-- A frame in which no widget reports anything. -/
def UiFrame.idle : UiFrame :=
  { enable_checkbox := none
    preview_button := false
    offset_slider := SliderFrame.idle
    quality_slider := SliderFrame.idle
    closing_d_slider := SliderFrame.idle
    hole_diameter_slider := SliderFrame.idle
    hole_depth_slider := SliderFrame.idle
    remove_selected_button := false
    remove_all_button := false
    clipping_slider := none
    show_supports_checkbox := none
    toggle_sla_auxiliaries_visibility := false }

/-- The frame of a click on the track of the offset slider away from its
grab: the slider reports the click and already writes the value under the
mouse, 1, in the same frame. -/
def UiFrame.offset_click : UiFrame :=
  { UiFrame.idle with
    offset_slider := { set_to := some 1, clicked := true, edited := true, released := false } }

/-- The frame after the mouse button went up over the offset slider. -/
def UiFrame.offset_release : UiFrame :=
  { UiFrame.idle with
    offset_slider := { set_to := none, clicked := false, edited := false, released := true } }

/-- The frame of a press on the grab of the offset slider: the click is
reported and the value is left as it is. -/
def UiFrame.offset_press : UiFrame :=
  { UiFrame.idle with
    offset_slider := { set_to := none, clicked := true, edited := false, released := false } }

/-- A frame of a live edit of the offset slider that writes 1. -/
def UiFrame.offset_edit : UiFrame :=
  { UiFrame.idle with
    offset_slider := { set_to := some 1, clicked := false, edited := true, released := false } }

/-- The frame of a click on the track of the diameter slider away from its
grab: the click is reported and 5 is written in the same frame. -/
def UiFrame.diameter_click : UiFrame :=
  { UiFrame.idle with
    hole_diameter_slider :=
      { set_to := some 5, clicked := true, edited := true, released := false } }

/-- The frame after the mouse button went up over the diameter slider. -/
def UiFrame.diameter_release : UiFrame :=
  { UiFrame.idle with
    hole_diameter_slider :=
      { set_to := none, clicked := false, edited := false, released := true } }

/-- One hole of radius 2, selected. -/
def State.one_selected : State :=
  { State.blank with
    sla_drain_holes := [sample_hole 0]
    m_selected := [true]
    m_selection_empty := false }

/-- One hole, and an object config whose hollowing offset is 3. -/
def State.offset_three : State :=
  { State.one_hole with
    config := { hollowing_enable := some true, hollowing_min_thickness := some 3
                hollowing_quality := some (1 / 2), hollowing_closing_distance := some 2 } }

/-- The offset of the clipping plane in the words of the spec: dot(center,
normal) - boundingRadius + distance * 2 * boundingRadius. -/
def spec_clipping_offset (normal center : Vec3) (radius distance : ℚ) : ℚ :=
  Vec3.dot center normal - radius + distance * 2 * radius

/-- The normal that update_clipping_plane gives to the plane constructor. -/
def chosen_normal (env : Env) (keep_normal : Bool) (s : State) : Vec3 :=
  if keep_normal = true ∧ s.m_clipping_plane.normal ≠ Vec3.Zero then s.m_clipping_plane.normal
  else Vec3.neg env.camera_dir_forward

/-- The centre of the active instance as update_clipping_plane computes it:
the offset of the instance raised by m_z_shift. -/
def instance_center (env : Env) (s : State) : Vec3 :=
  Vec3.add env.instance_offset ⟨0, 0, s.m_z_shift⟩

/-- A scene in which no ray hits the mesh. -/
def Env.miss : Env :=
  { Env.sample with unproject := fun _ => none }

/-- Two holes of which the first is selected while the second is hovered. -/
def State.hover_unselected : State :=
  { State.blank with
    sla_drain_holes := [sample_hole 0, sample_hole 1]
    m_selected := [true, false]
    m_selection_empty := false
    m_hover_id := 1 }

/-- The four sample holes, flags true, true, false, true, with the third hole
hovered. -/
def State.four_hover_third : State :=
  { State.four_holes with m_hover_id := 2 }

/-- The state in which the drag of the hovered second hole has started: the
hole is selected and its position (1, 0, 0) is recorded. -/
def State.drag_started : State :=
  { State.hover_second with
    m_selected := [false, true]
    m_selection_empty := false
    m_new_hole_radius := 2
    m_new_hole_height := 7
    m_hole_before_drag := ⟨1, 0, 0⟩ }

/-- One unselected hole of radius 3 and height 7, nothing hovered. -/
def State.wide_hole : State :=
  { State.blank with
    sla_drain_holes := [{ pos := ⟨1, 0, 0⟩, normal := ⟨0, 0, -1⟩, radius := 3, height := 7 }]
    m_selected := [false] }

/-- One hovered hole at (1, 0, 0) whose normal is (1, 0, 0). -/
def State.hover_tilted : State :=
  { State.blank with
    sla_drain_holes := [{ pos := ⟨1, 0, 0⟩, normal := ⟨1, 0, 0⟩, radius := 2, height := 7 }]
    m_selected := [false]
    m_hover_id := 0 }

/-- A frame in which only the sliders of the hole diameter and hole depth
report something. -/
def UiFrame.hole_sliders (diameter depth : SliderFrame) : UiFrame :=
  { UiFrame.idle with hole_diameter_slider := diameter, hole_depth_slider := depth }

/-- A live edit of the diameter slider that writes 5. -/
def SliderFrame.edit_to_five : SliderFrame :=
  { set_to := some 5, clicked := false, edited := true, released := false }

/-- A slider that reports a click, an edit to 5 and a release at once. -/
def SliderFrame.all_at_once : SliderFrame :=
  { set_to := some 5, clicked := true, edited := true, released := true }

/-- Replaces radius and height of a hole. -/
def DrainHole.resized (x : DrainHole) (radius height : ℚ) : DrainHole :=
  { x with radius := radius, height := height }

/-- Two holes of which the second is selected. -/
def State.second_selected : State :=
  { State.blank with
    sla_drain_holes := [sample_hole 0, sample_hole 1]
    m_selected := [false, true]
    m_selection_empty := false }

/-! ## The print object lookup of render_clipping_plane -/

/-- What the lookup reads of an SLAPrintObject: the id of its model object
(po->model_object()->id()). -/
structure SLAPrintObject where
  model_object_id : Nat
deriving DecidableEq

/-- The range-for loop of the lookup: the index is incremented for every print
object visited and the loop breaks at the first object whose model object id
is the id of the active model object. -/
def lookup_loop (model_object_id : Nat) : List SLAPrintObject → Int → Int
  | [], idx => idx
  | po :: rest, idx =>
    let idx1 := idx + 1
    if po.model_object_id = model_object_id then idx1
    else lookup_loop model_object_id rest idx1

/-- The lookup block of render_clipping_plane (the code that follows the
comment about the cached index): objects stands for
m_parent.sla_print()->objects() and model_object_id for m_model_object->id().
The search runs when the cached index is negative or the number of print
objects differs from the cached count. -/
def print_object_lookup (objects : List SLAPrintObject) (model_object_id : Nat)
    (s : State) : State :=
  if s.m_print_object_idx < 0 ∨ (objects.length : Int) ≠ s.m_print_objects_count then
    { s with m_print_objects_count := (objects.length : Int)
             m_print_object_idx := lookup_loop model_object_id objects (-1) }
  else s

/-- The print object that the code after the lookup takes for the active
model object: objects()[m_print_object_idx] when the index is not negative. -/
def looked_up_print_object (objects : List SLAPrintObject) (s : State) :
    Option SLAPrintObject :=
  if 0 ≤ s.m_print_object_idx then objects[s.m_print_object_idx.toNat]? else none

/-- The state after select_point(0) and reload_cache() on one hole: no entry
of m_selected is true, yet m_selection_empty is still false. -/
def State.stale_flag : State :=
  { State.one_hole with m_selection_empty := false, m_new_hole_height := 7 }

/-! ## Deletion: the erase loop -/

theorem uint_wrap_after_erase (n : Nat) (h : n < UINT_MOD) :
    ((n + UINT_MOD - 1) % UINT_MOD + 1) % UINT_MOD = n := by
  unfold UINT_MOD at *
  omega

theorem uint_increment (n : Nat) (h : n + 1 < UINT_MOD) : (n + 1) % UINT_MOD = n + 1 := by
  unfold UINT_MOD at *
  omega

theorem unselected_holes_cons_true (sel : List Bool) (x : DrainHole) (holes : List DrainHole) :
    unselected_holes (true :: sel) (x :: holes) = unselected_holes sel holes := by
  simp [unselected_holes]

theorem unselected_holes_cons_false (sel : List Bool) (x : DrainHole) (holes : List DrainHole) :
    unselected_holes (false :: sel) (x :: holes) = x :: unselected_holes sel holes := by
  simp [unselected_holes]

/-- The erase loop started at cursor position |pre| on vectors pre ++ rest,
whose prefix is already scanned, returns the prefix followed by the
unselected part of the rest. -/
theorem delete_loop_suffix (sel : List Bool) :
    ∀ (holes : List DrainHole) (pre_sel : List Bool) (pre_holes : List DrainHole) (fuel : Nat),
      pre_sel.length = pre_holes.length → sel.length = holes.length →
      pre_sel.length + sel.length < UINT_MOD → sel.length < fuel →
      delete_loop fuel pre_sel.length (pre_sel ++ sel) (pre_holes ++ holes)
        = .ok (pre_sel ++ sel.filter (fun b => !b), pre_holes ++ unselected_holes sel holes) := by
  induction sel with
  | nil =>
    intro holes pre_sel pre_holes fuel hpre hlen _ hfuel
    have hh : holes = [] := List.length_eq_zero.mp hlen.symm
    subst hh
    obtain ⟨f, rfl⟩ : ∃ f, fuel = f + 1 := ⟨fuel - 1, by simp at hfuel; omega⟩
    simp [delete_loop, hpre, unselected_holes]
  | cons b sel ih =>
    intro holes pre_sel pre_holes fuel hpre hlen hbound hfuel
    cases holes with
    | nil => simp at hlen
    | cons x holes =>
      obtain ⟨f, rfl⟩ : ∃ f, fuel = f + 1 := ⟨fuel - 1, by simp at hfuel; omega⟩
      simp only [List.length_cons] at hlen hbound hfuel
      have hlt : pre_sel.length < (pre_holes ++ x :: holes).length := by
        simp [hpre]
      have hget : (pre_sel ++ b :: sel)[pre_sel.length]? = some b := by
        rw [List.getElem?_append_right (le_refl _)]
        simp
      cases b with
      | true =>
        have he1 : (pre_sel ++ true :: sel).eraseIdx pre_sel.length = pre_sel ++ sel := by
          rw [List.eraseIdx_append_of_length_le (le_refl _)]
          simp
        have he2 : (pre_holes ++ x :: holes).eraseIdx pre_sel.length = pre_holes ++ holes := by
          rw [hpre, List.eraseIdx_append_of_length_le (le_refl _)]
          simp
        have hw := uint_wrap_after_erase pre_sel.length (by omega)
        rw [delete_loop, if_pos hlt, hget]
        simp only [he1, he2, hw]
        rw [ih holes pre_sel pre_holes f hpre (by omega) (by omega) (by omega)]
        simp [unselected_holes_cons_true]
      | false =>
        have hw := uint_increment pre_sel.length (by omega)
        rw [delete_loop, if_pos hlt, hget]
        simp only [hw]
        have ih1 := ih holes (pre_sel ++ [false]) (pre_holes ++ [x]) f
          (by simp [hpre]) (by omega) (by simp; omega) (by omega)
        simp only [List.length_append, List.length_singleton, List.append_assoc,
          List.singleton_append] at ih1
        rw [ih1]
        simp [unselected_holes_cons_false]

/-! ## Facts about select_point and unselect_point -/

theorem select_point_NoPoints (s : State) :
    select_point NoPoints s =
      .ok { s with m_selected := List.replicate s.m_selected.length false
                   m_selection_empty := true } := by
  simp [select_point, NoPoints, AllPoints]

/-! ## C2: deletion retains exactly the unselected holes -/

theorem unselected_holes_length (sel : List Bool) :
    ∀ holes : List DrainHole, sel.length = holes.length →
      (unselected_holes sel holes).length = (sel.filter (fun b => !b)).length := by
  induction sel with
  | nil => intro holes _; simp [unselected_holes]
  | cons b sel ih =>
    intro holes hl
    cases holes with
    | nil => simp at hl
    | cons x holes =>
      have hl1 : sel.length = holes.length := by simpa using hl
      cases b
      · simp [unselected_holes_cons_false, ih holes hl1]
      · simp [unselected_holes_cons_true, ih holes hl1]

/-- The state left by delete_selected_points on vectors of equal length. -/
theorem delete_selected_points_ok (fuel : Nat) (s : State)
    (hlen : s.m_selected.length = s.sla_drain_holes.length)
    (hsize : s.sla_drain_holes.length < UINT_MOD)
    (hfuel : s.sla_drain_holes.length < fuel) :
    delete_selected_points fuel s = .ok
      { take_snapshot .delete_drainage_hole s with
        m_selected := List.replicate
          (unselected_holes s.m_selected s.sla_drain_holes).length false
        sla_drain_holes := unselected_holes s.m_selected s.sla_drain_holes
        m_selection_empty := true } := by
  have hloop := delete_loop_suffix s.m_selected s.sla_drain_holes [] [] fuel rfl hlen
    (by simpa [hlen] using hsize) (by simpa [hlen] using hfuel)
  simp only [List.length_nil, List.nil_append] at hloop
  simp only [delete_selected_points, take_snapshot, hloop]
  rw [select_point_NoPoints]
  simp [unselected_holes_length _ _ hlen]

/-- C2. For every hole collection and index-parallel selection vector of
equal length (a length the 32-bit cursor can hold), delete_selected_points
finishes within length + 1 loop tests and leaves exactly the holes whose flag
was false, in their original order; afterwards the selection vector has one
false flag per remaining hole and m_selection_empty is true. -/
theorem delete_selected_points_retains_unselected (fuel : Nat) (s : State)
    (hlen : s.m_selected.length = s.sla_drain_holes.length)
    (hsize : s.sla_drain_holes.length < UINT_MOD)
    (hfuel : s.sla_drain_holes.length < fuel) :
    ∃ s1, delete_selected_points fuel s = .ok s1 ∧
      s1.sla_drain_holes = unselected_holes s.m_selected s.sla_drain_holes ∧
      s1.m_selected = List.replicate s1.sla_drain_holes.length false ∧
      nothing_selected s1.m_selected ∧
      s1.m_selection_empty = true := by
  refine ⟨_, delete_selected_points_ok fuel s hlen hsize hfuel, rfl, rfl, ?_, rfl⟩
  intro b hb
  exact List.eq_of_mem_replicate hb

theorem delete_selected_points_retains_unselected_witness :
    State.four_holes.m_selected.length = State.four_holes.sla_drain_holes.length ∧
    State.four_holes.sla_drain_holes.length < UINT_MOD ∧
    State.four_holes.sla_drain_holes.length < 5 ∧
    ∃ s1, delete_selected_points 5 State.four_holes = .ok s1 ∧
      s1.sla_drain_holes = unselected_holes State.four_holes.m_selected
        State.four_holes.sla_drain_holes ∧
      s1.m_selected = List.replicate s1.sla_drain_holes.length false ∧
      nothing_selected s1.m_selected ∧
      s1.m_selection_empty = true :=
  ⟨by decide, by decide, by decide,
    delete_selected_points_retains_unselected 5 State.four_holes (by decide)
      (by decide) (by decide)⟩

/-- On the four sample holes with flags true, true, false, true only the third
hole is left. -/
theorem unselected_holes_four_holes :
    unselected_holes State.four_holes.m_selected State.four_holes.sla_drain_holes
      = [sample_hole 2] := by decide

/-! ## C4: placing a hole -/

/-- The state left by a left press that places a hole. -/
theorem gizmo_event_placement (env : Env) (fuel : Nat) (mouse_position : Vec2) (s : State)
    (hit normal : Vec3)
    (hhover : s.m_hover_id = -1)
    (hempty : s.m_selection_empty = true)
    (hrect : s.m_selection_rectangle.is_dragging = false)
    (hray : env.unproject mouse_position = some (hit, normal)) :
    gizmo_event env fuel .LeftDown mouse_position false false false s = .ok (true,
      { take_snapshot .add_drainage_hole s with
        sla_drain_holes := s.sla_drain_holes ++
          [{ pos := Vec3.add hit (Vec3.smul env.HoleStickOutLength normal)
             normal := Vec3.neg normal
             radius := s.m_new_hole_radius
             height := s.m_new_hole_height + env.HoleStickOutLength }]
        m_selected := s.m_selected ++ [false]
        dirty := true
        m_wait_for_up_event := true }) := by
  simp [gizmo_event, hhover, hempty, hrect, hray, take_snapshot, set_as_dirty]

/-- Placement while the cached flag is true. For every left press with no
modifier, no rectangle gesture active, nothing hovered and m_selection_empty
true, if the raycast returns (hit, normal) then the event is reported handled,
exactly one hole is appended behind the unchanged previous holes, its position
is hit + HoleStickOutLength * normal, its normal is -normal, and the selection
vector gets one more flag, false. -/
theorem placement_appends_hole (env : Env) (fuel : Nat) (mouse_position : Vec2) (s : State)
    (hit normal : Vec3)
    (hhover : s.m_hover_id = -1)
    (hempty : s.m_selection_empty = true)
    (hrect : s.m_selection_rectangle.is_dragging = false)
    (hray : env.unproject mouse_position = some (hit, normal)) :
    ∃ s1 hole, gizmo_event env fuel .LeftDown mouse_position false false false s = .ok (true, s1) ∧
      s1.sla_drain_holes = s.sla_drain_holes ++ [hole] ∧
      hole.pos = Vec3.add hit (Vec3.smul env.HoleStickOutLength normal) ∧
      hole.normal = Vec3.neg normal ∧
      s1.m_selected = s.m_selected ++ [false] :=
  ⟨_, _, gizmo_event_placement env fuel mouse_position s hit normal hhover hempty hrect hray,
    rfl, rfl, rfl, rfl⟩

theorem placement_appends_hole_witness :
    State.blank.m_hover_id = -1 ∧ State.blank.m_selection_empty = true ∧
    State.blank.m_selection_rectangle.is_dragging = false ∧
    Env.sample.unproject ⟨5, 5⟩ = some (⟨1, 2, 3⟩, ⟨0, 0, 1⟩) ∧
    ∃ s1 hole, gizmo_event Env.sample 1 .LeftDown ⟨5, 5⟩ false false false State.blank
        = .ok (true, s1) ∧
      s1.sla_drain_holes = State.blank.sla_drain_holes ++ [hole] ∧
      hole.pos = Vec3.add ⟨1, 2, 3⟩ (Vec3.smul Env.sample.HoleStickOutLength ⟨0, 0, 1⟩) ∧
      hole.normal = Vec3.neg ⟨0, 0, 1⟩ ∧
      s1.m_selected = State.blank.m_selected ++ [false] :=
  ⟨by decide, by decide, by decide, rfl,
    placement_appends_hole Env.sample 1 ⟨5, 5⟩ State.blank ⟨1, 2, 3⟩ ⟨0, 0, 1⟩
      (by decide) (by decide) (by decide) rfl⟩

/-! ## C1: the selection vector and the hole collection keep one length -/

/-- C1. From any state in which m_selected and the hole collection have the
same length, a hole placement (left press with a raycast hit), a call of
delete_selected_points (on a collection the 32-bit cursor can hold) and a call
of reload_cache each end in a state where the two lengths are equal again. -/
theorem selection_length_preserved (env : Env) (fuel : Nat) (s : State)
    (hlen : s.m_selected.length = s.sla_drain_holes.length) :
    (∀ (mouse_position : Vec2) (hit normal : Vec3),
      s.m_hover_id = -1 → s.m_selection_empty = true →
      s.m_selection_rectangle.is_dragging = false →
      env.unproject mouse_position = some (hit, normal) →
      ∃ s1, gizmo_event env fuel .LeftDown mouse_position false false false s = .ok (true, s1) ∧
        s1.sla_drain_holes.length = s.sla_drain_holes.length + 1 ∧
        s1.m_selected.length = s1.sla_drain_holes.length) ∧
    (s.sla_drain_holes.length < UINT_MOD → s.sla_drain_holes.length < fuel →
      ∃ s1, delete_selected_points fuel s = .ok s1 ∧
        s1.m_selected.length = s1.sla_drain_holes.length) ∧
    (reload_cache s).m_selected.length = (reload_cache s).sla_drain_holes.length := by
  refine ⟨?_, ?_, ?_⟩
  · intro mouse_position hit normal hhover hempty hrect hray
    refine ⟨_, gizmo_event_placement env fuel mouse_position s hit normal hhover hempty hrect hray,
      ?_, ?_⟩
    · simp [take_snapshot]
    · simp [take_snapshot, hlen]
  · intro hsize hfuel
    exact ⟨_, delete_selected_points_ok fuel s hlen hsize hfuel, by simp⟩
  · simp [reload_cache]

theorem selection_length_preserved_witness :
    State.one_hole.m_selected.length = State.one_hole.sla_drain_holes.length ∧
    ((∀ (mouse_position : Vec2) (hit normal : Vec3),
      State.one_hole.m_hover_id = -1 → State.one_hole.m_selection_empty = true →
      State.one_hole.m_selection_rectangle.is_dragging = false →
      Env.sample.unproject mouse_position = some (hit, normal) →
      ∃ s1, gizmo_event Env.sample 2 .LeftDown mouse_position false false false State.one_hole
          = .ok (true, s1) ∧
        s1.sla_drain_holes.length = State.one_hole.sla_drain_holes.length + 1 ∧
        s1.m_selected.length = s1.sla_drain_holes.length) ∧
    (State.one_hole.sla_drain_holes.length < UINT_MOD →
      State.one_hole.sla_drain_holes.length < 2 →
      ∃ s1, delete_selected_points 2 State.one_hole = .ok s1 ∧
        s1.m_selected.length = s1.sla_drain_holes.length) ∧
    (reload_cache State.one_hole).m_selected.length
      = (reload_cache State.one_hole).sla_drain_holes.length) :=
  ⟨by decide, selection_length_preserved Env.sample 2 State.one_hole (by decide)⟩

/-! ## C9: unselect_point -/

theorem selection_scan_iff (sel : List Bool) :
    selection_scan sel = true ↔ nothing_selected sel := by
  induction sel with
  | nil => simp [selection_scan, nothing_selected]
  | cons b sel ih =>
    cases b
    · simp [selection_scan, nothing_selected] at ih ⊢
      exact ih
    · simp [selection_scan, nothing_selected]

theorem unselect_point_ok (s : State) (i : Nat) (hi : i < s.m_selected.length) :
    unselect_point (i : Int) s = .ok
      { s with m_selected := s.m_selected.set i false
               m_selection_empty := selection_scan (s.m_selected.set i false) } := by
  simp [unselect_point, hi]

/-- C9. For every selection vector and every valid index i, unselect_point(i)
sets flag i to false, leaves every other flag unchanged, and sets
m_selection_empty to true if and only if no other index is selected. -/
theorem unselect_point_clears_one_flag (s : State) (i : Nat) (hi : i < s.m_selected.length) :
    ∃ s1, unselect_point (i : Int) s = .ok s1 ∧
      s1.m_selected[i]? = some false ∧
      (∀ j, j ≠ i → s1.m_selected[j]? = s.m_selected[j]?) ∧
      (s1.m_selection_empty = true ↔ ∀ j, j ≠ i → s.m_selected[j]? ≠ some true) := by
  refine ⟨_, unselect_point_ok s i hi, ?_, ?_, ?_⟩
  · simp [hi]
  · intro j hj
    simp [List.getElem?_set, Ne.symm hj]
  · simp only [selection_scan_iff, nothing_selected]
    constructor
    · intro h j hj hsel
      have hmem : (s.m_selected.set i false)[j]? = some true := by
        simpa [List.getElem?_set, Ne.symm hj] using hsel
      have := h true (List.mem_iff_getElem?.mpr ⟨j, hmem⟩)
      simp at this
    · intro h b hb
      obtain ⟨j, hjb⟩ := List.getElem?_of_mem hb
      by_cases hji : j = i
      · subst hji
        have hjlt : j < s.m_selected.length := hi
        simpa [List.getElem?_set, hjlt] using hjb.symm
      · cases b
        · rfl
        · exfalso
          apply h j hji
          simpa [List.getElem?_set, Ne.symm hji] using hjb

/-- The example of the claim: from [true, true], unselecting index 0 leaves
m_selection_empty false and unselecting index 1 afterwards makes it true. -/
theorem unselect_point_two_selected :
    ∃ s1 s2, unselect_point 0 State.two_selected = .ok s1 ∧ s1.m_selection_empty = false ∧
      unselect_point 1 s1 = .ok s2 ∧ s2.m_selection_empty = true ∧
      s2.m_selected = [false, false] :=
  ⟨_, _, rfl, rfl, rfl, rfl, rfl⟩

theorem unselect_point_clears_one_flag_witness :
    0 < State.two_selected.m_selected.length ∧
    ∃ s1, unselect_point ((0 : Nat) : Int) State.two_selected = .ok s1 ∧
      s1.m_selected[0]? = some false ∧
      (∀ j, j ≠ 0 → s1.m_selected[j]? = State.two_selected.m_selected[j]?) ∧
      (s1.m_selection_empty = true ↔
        ∀ j, j ≠ 0 → State.two_selected.m_selected[j]? ≠ some true) :=
  ⟨by decide, unselect_point_clears_one_flag State.two_selected 0 (by decide)⟩

/-! ## C3: m_selection_empty and reload_cache -/

/-- Every select_point call that returns, on vectors of equal length, leaves
the cached flag in sync. -/
theorem select_point_in_sync (i : Int) (s s1 : State)
    (hlen : s.m_selected.length = s.sla_drain_holes.length)
    (hok : select_point i s = .ok s1) : selection_empty_in_sync s1 := by
  unfold select_point at hok
  by_cases hall : i = AllPoints
  · subst hall
    cases hget : s.sla_drain_holes[0]? with
    | none => simp [hget] at hok
    | some x =>
      simp only [true_or, if_true, hget] at hok
      have hpos : 0 < s.m_selected.length := by
        rw [hlen]
        rcases Nat.lt_or_ge 0 s.sla_drain_holes.length with hl | hl
        · exact hl
        · rw [List.getElem?_eq_none hl] at hget
          cases hget
      cases hok
      simp only [selection_empty_in_sync, nothing_selected, decide_True]
      constructor
      · intro h
        simp [AllPoints, NoPoints] at h
      · intro h
        have := h true (List.mem_replicate.mpr ⟨by omega, rfl⟩)
        simp at this
  · by_cases hno : i = NoPoints
    · subst hno
      simp only [or_true, if_true, hall, if_false] at hok
      cases hok
      simp only [selection_empty_in_sync, nothing_selected, decide_True, true_iff]
      intro b hb
      have := List.eq_of_mem_replicate hb
      simpa [AllPoints, NoPoints] using this
    · by_cases hneg : i < 0
      · simp [hall, hno, hneg] at hok
      · cases hget : s.sla_drain_holes[i.toNat]? with
        | none => simp [hall, hno, hneg, hget] at hok
        | some x =>
          simp only [hall, hno, or_self, if_false, hneg, hget] at hok
          cases hok
          simp only [selection_empty_in_sync, nothing_selected]
          constructor
          · intro h
            cases h
          · intro h
            have hmem : true ∈ (s.m_selected
                ++ List.replicate (i.toNat + 1 - s.m_selected.length) false).set i.toNat true := by
              apply List.mem_iff_getElem?.mpr
              refine ⟨i.toNat, ?_⟩
              have hl : i.toNat < (s.m_selected
                  ++ List.replicate (i.toNat + 1 - s.m_selected.length) false).length := by
                simp only [List.length_append, List.length_replicate]
                omega
              simp only [List.getElem?_set, hl]
              simp
            have := h true hmem
            simp at this

/-- The operations other than reload_cache keep the cached flag in sync:
unselect_point and delete_selected_points whenever they return, and a hole
placement from a state that is in sync. -/
theorem selection_empty_in_sync_kept (env : Env) (fuel : Nat) (s : State) :
    (∀ i s1, unselect_point i s = .ok s1 → selection_empty_in_sync s1) ∧
    (∀ s1, delete_selected_points fuel s = .ok s1 → selection_empty_in_sync s1) ∧
    (∀ mouse_position hit normal, selection_empty_in_sync s → s.m_hover_id = -1 →
      s.m_selection_empty = true → s.m_selection_rectangle.is_dragging = false →
      env.unproject mouse_position = some (hit, normal) →
      ∃ s1, gizmo_event env fuel .LeftDown mouse_position false false false s = .ok (true, s1) ∧
        selection_empty_in_sync s1) := by
  refine ⟨?_, ?_, ?_⟩
  · intro i s1 hok
    unfold unselect_point at hok
    split at hok
    · cases hok
      exact selection_scan_iff _
    · cases hok
  · intro s1 hok
    simp only [delete_selected_points] at hok
    cases hloop : delete_loop fuel 0 (take_snapshot .delete_drainage_hole s).m_selected
        (take_snapshot .delete_drainage_hole s).sla_drain_holes with
    | error e => simp [hloop] at hok
    | ok r =>
      obtain ⟨sel, holes⟩ := r
      simp only [hloop, select_point_NoPoints] at hok
      cases hok
      simp only [selection_empty_in_sync, nothing_selected, true_iff]
      intro b hb
      exact List.eq_of_mem_replicate hb
  · intro mouse_position hit normal hsync hhover hempty hrect hray
    refine ⟨_, gizmo_event_placement env fuel mouse_position s hit normal hhover hempty hrect hray,
      ?_⟩
    have hnone := hsync.mp hempty
    simp only [selection_empty_in_sync, nothing_selected, take_snapshot, hempty, true_iff]
    intro b hb
    rcases List.mem_append.mp hb with h | h
    · exact hnone b h
    · simpa using h

/-- C3 (the code departs from the claim). Selecting the only hole of a state
whose flag is in sync gives a state whose flag is in sync; reload_cache then
clears every entry of m_selected and leaves m_selection_empty false, so the
flag no longer tells that nothing is selected. -/
theorem reload_cache_leaves_selection_empty_stale :
    (State.one_hole.m_selection_empty = true ↔ nothing_selected State.one_hole.m_selected) ∧
    ∃ s1, select_point 0 State.one_hole = .ok s1 ∧
      (s1.m_selection_empty = true ↔ nothing_selected s1.m_selected) ∧
      (reload_cache s1).m_selected = [false] ∧
      (reload_cache s1).m_selection_empty = false ∧
      ¬ ((reload_cache s1).m_selection_empty = true ↔
          nothing_selected (reload_cache s1).m_selected) := by
  refine ⟨by simp [State.one_hole, State.blank, nothing_selected], _, rfl, ?_, rfl, rfl, ?_⟩
  · simp [State.one_hole, State.blank, nothing_selected]
  · simp [reload_cache, State.one_hole, State.blank, nothing_selected]

/-! ## C10: select-all without holes -/

/-- C10 (the code departs from the claim). After all four sample holes were
deleted through select-all and delete_selected_points, no hole is left, and a
further select-all reads sla_drain_holes[0] of the empty vector: the call is
an access out of range, both directly and through the SelectAll event. -/
theorem select_all_without_holes_out_of_range :
    ∃ s1 s2, select_point AllPoints State.four_holes = .ok s1 ∧
      delete_selected_points 5 s1 = .ok s2 ∧
      s2.sla_drain_holes = [] ∧ s2.m_selected = [] ∧ s2.m_selection_empty = true ∧
      select_point AllPoints s2 = .error .out_of_range ∧
      gizmo_event Env.sample 5 .SelectAll ⟨0, 0⟩ false false true s2
        = .error .out_of_range :=
  ⟨_, _, rfl, rfl, rfl, rfl, rfl, rfl, rfl⟩

/-! ## C8: the clip distance under wheel events -/

theorem update_clipping_plane_distance (env : Env) (keep_normal : Bool) (s : State) :
    (update_clipping_plane env keep_normal s).m_clipping_plane_distance
      = s.m_clipping_plane_distance := by
  simp [update_clipping_plane, set_as_dirty]

theorem gizmo_event_wheel_up (env : Env) (fuel : Nat) (mouse_position : Vec2)
    (shift_down alt_down : Bool) (s : State) :
    gizmo_event env fuel .MouseWheelUp mouse_position shift_down alt_down true s
      = .ok (true, update_clipping_plane env true
          { s with m_clipping_plane_distance := min 1 (s.m_clipping_plane_distance + 1 / 100) }) := by
  simp [gizmo_event]

theorem gizmo_event_wheel_down (env : Env) (fuel : Nat) (mouse_position : Vec2)
    (shift_down alt_down : Bool) (s : State) :
    gizmo_event env fuel .MouseWheelDown mouse_position shift_down alt_down true s
      = .ok (true, update_clipping_plane env true
          { s with m_clipping_plane_distance := max 0 (s.m_clipping_plane_distance - 1 / 100) }) := by
  simp [gizmo_event]

theorem wheel_run_in_range (env : Env) (fuel : Nat) (events : List WheelEvent) :
    ∀ s : State, 0 ≤ s.m_clipping_plane_distance → s.m_clipping_plane_distance ≤ 1 →
      ∃ s1, wheel_run env fuel events s = .ok s1 ∧
        0 ≤ s1.m_clipping_plane_distance ∧ s1.m_clipping_plane_distance ≤ 1 := by
  induction events with
  | nil => intro s h0 h1; exact ⟨s, rfl, h0, h1⟩
  | cons e rest ih =>
    intro s h0 h1
    cases hup : e.up
    · simp only [wheel_run, hup, gizmo_event_wheel_down]
      apply ih
      · rw [update_clipping_plane_distance]
        exact le_max_left _ _
      · rw [update_clipping_plane_distance]
        apply max_le (by norm_num)
        linarith
    · simp only [wheel_run, hup, gizmo_event_wheel_up]
      apply ih
      · rw [update_clipping_plane_distance]
        apply le_min (by norm_num)
        linarith
      · rw [update_clipping_plane_distance]
        exact min_le_left _ _

/-- C8. For every clip distance d in [0, 1]: a wheel-up event with control
held is handled and sets the distance to min(1, d + 0.01), a wheel-down event
with control held is handled and sets it to max(0, d - 0.01), and after every
finite sequence of such events the distance is in [0, 1]. -/
theorem clip_distance_stays_clamped (env : Env) (fuel : Nat) (s : State)
    (h0 : 0 ≤ s.m_clipping_plane_distance) (h1 : s.m_clipping_plane_distance ≤ 1) :
    (∀ (mouse_position : Vec2) (shift_down alt_down : Bool),
      ∃ s1, gizmo_event env fuel .MouseWheelUp mouse_position shift_down alt_down true s
          = .ok (true, s1) ∧
        s1.m_clipping_plane_distance = min 1 (s.m_clipping_plane_distance + 1 / 100)) ∧
    (∀ (mouse_position : Vec2) (shift_down alt_down : Bool),
      ∃ s1, gizmo_event env fuel .MouseWheelDown mouse_position shift_down alt_down true s
          = .ok (true, s1) ∧
        s1.m_clipping_plane_distance = max 0 (s.m_clipping_plane_distance - 1 / 100)) ∧
    (∀ events : List WheelEvent,
      ∃ s1, wheel_run env fuel events s = .ok s1 ∧
        0 ≤ s1.m_clipping_plane_distance ∧ s1.m_clipping_plane_distance ≤ 1) := by
  refine ⟨?_, ?_, ?_⟩
  · intro mouse_position shift_down alt_down
    exact ⟨_, gizmo_event_wheel_up env fuel mouse_position shift_down alt_down s,
      update_clipping_plane_distance _ _ _⟩
  · intro mouse_position shift_down alt_down
    exact ⟨_, gizmo_event_wheel_down env fuel mouse_position shift_down alt_down s,
      update_clipping_plane_distance _ _ _⟩
  · intro events
    exact wheel_run_in_range env fuel events s h0 h1

theorem clip_distance_stays_clamped_witness :
    0 ≤ State.nearly_open.m_clipping_plane_distance ∧
    State.nearly_open.m_clipping_plane_distance ≤ 1 ∧
    ((∀ (mouse_position : Vec2) (shift_down alt_down : Bool),
      ∃ s1, gizmo_event Env.sample 1 .MouseWheelUp mouse_position shift_down alt_down true
          State.nearly_open = .ok (true, s1) ∧
        s1.m_clipping_plane_distance
          = min 1 (State.nearly_open.m_clipping_plane_distance + 1 / 100)) ∧
    (∀ (mouse_position : Vec2) (shift_down alt_down : Bool),
      ∃ s1, gizmo_event Env.sample 1 .MouseWheelDown mouse_position shift_down alt_down true
          State.nearly_open = .ok (true, s1) ∧
        s1.m_clipping_plane_distance
          = max 0 (State.nearly_open.m_clipping_plane_distance - 1 / 100)) ∧
    (∀ events : List WheelEvent,
      ∃ s1, wheel_run Env.sample 1 events State.nearly_open = .ok s1 ∧
        0 ≤ s1.m_clipping_plane_distance ∧ s1.m_clipping_plane_distance ≤ 1)) :=
  ⟨by norm_num [State.nearly_open], by norm_num [State.nearly_open],
    clip_distance_stays_clamped Env.sample 1 State.nearly_open
      (by norm_num [State.nearly_open]) (by norm_num [State.nearly_open])⟩

/-- Two wheel-up events from 0.995 stop at 1, and a wheel-down event from 0
stays at 0. -/
theorem wheel_run_saturates :
    (∃ s1, wheel_run Env.sample 1 [⟨true, ⟨0, 0⟩, false, false⟩, ⟨true, ⟨0, 0⟩, false, false⟩]
        State.nearly_open = .ok s1 ∧ s1.m_clipping_plane_distance = 1) ∧
    (∃ s1, wheel_run Env.sample 1 [⟨false, ⟨0, 0⟩, false, false⟩] State.blank = .ok s1 ∧
      s1.m_clipping_plane_distance = 0) := by
  refine ⟨⟨_, rfl, ?_⟩, ⟨_, rfl, ?_⟩⟩
  · simp only [update_clipping_plane_distance, State.nearly_open]
    norm_num
  · simp only [update_clipping_plane_distance, State.blank]
    norm_num

/-! ## C5: the snapshot taken when a drag stops -/

theorem index_int_natCast {α : Type} (v : List α) (h : Nat) :
    index_int v (h : Int) = v[h]? := by
  simp [index_int]

theorem select_point_index (s : State) (n : Nat) (x : DrainHole)
    (hget : s.sla_drain_holes[n]? = some x) :
    select_point (n : Int) s = .ok
      { s with m_selected :=
                 (s.m_selected ++ List.replicate (n + 1 - s.m_selected.length) false).set n true
               m_selection_empty := false
               m_new_hole_radius := x.radius
               m_new_hole_height := x.height } := by
  have h1 : ¬ ((n : Int) = AllPoints ∨ (n : Int) = NoPoints) := by
    simp only [AllPoints, NoPoints]
    omega
  have h2 : ¬ ((n : Int) < 0) := by omega
  simp [select_point, h1, h2, hget]

/-- The state left by on_start_dragging on a valid hovered hole. -/
theorem on_start_dragging_ok (s : State) (h : Nat) (x : DrainHole)
    (hhover : s.m_hover_id = (h : Int)) (hget : s.sla_drain_holes[h]? = some x) :
    on_start_dragging s = .ok
      { s with m_selected :=
                 (List.replicate s.m_selected.length false
                   ++ List.replicate (h + 1 - s.m_selected.length) false).set h true
               m_selection_empty := false
               m_new_hole_radius := x.radius
               m_new_hole_height := x.height
               m_hole_before_drag := x.pos } := by
  have hne : ¬ ((h : Int) = -1) := by omega
  have hsel := select_point_index
    { s with m_selected := List.replicate s.m_selected.length false
             m_selection_empty := true } h x hget
  simp only [on_start_dragging, hhover, ne_eq, hne, not_false_eq_true, if_true,
    select_point_NoPoints]
  simp only [hhover] at hsel ⊢
  rw [hsel]
  simp only [index_int_natCast, hget, List.length_replicate]

/-- What on_start_dragging does on a valid hovered hole: the holes, the hover
index and the history are kept and the position of the hovered hole is
recorded. -/
theorem on_start_dragging_records (s : State) (h : Nat) (x : DrainHole)
    (hhover : s.m_hover_id = (h : Int)) (hget : s.sla_drain_holes[h]? = some x) :
    ∃ s1, on_start_dragging s = .ok s1 ∧ s1.sla_drain_holes = s.sla_drain_holes ∧
      s1.m_hover_id = (h : Int) ∧ s1.history = s.history ∧ s1.m_hole_before_drag = x.pos :=
  ⟨_, on_start_dragging_ok s h x hhover hget, rfl, hhover, rfl, rfl⟩

/-- The state left by on_update when the ray hits the mesh. -/
theorem on_update_hit (env : Env) (mouse_pos : Vec2) (s : State) (h : Nat) (x : DrainHole)
    (hit normal : Vec3)
    (hhover : s.m_hover_id = (h : Int)) (hget : s.sla_drain_holes[h]? = some x)
    (hray : env.unproject mouse_pos = some (hit, normal)) :
    on_update env mouse_pos s = .ok
      { s with sla_drain_holes := s.sla_drain_holes.set h
                 { pos := Vec3.add hit (Vec3.smul env.HoleStickOutLength normal)
                   normal := Vec3.neg normal
                   radius := x.radius
                   height := x.height } } := by
  have hne : ¬ ((h : Int) = -1) := by omega
  simp only [on_update, hhover, ne_eq, hne, not_false_eq_true, if_true, hray, update_int,
    index_int_natCast, hget, Int.toNat_ofNat]

/-- The state left by on_update when the ray misses the mesh. -/
theorem on_update_miss (env : Env) (mouse_pos : Vec2) (s : State)
    (hray : env.unproject mouse_pos = none) :
    on_update env mouse_pos s = .ok s := by
  by_cases hh : s.m_hover_id = -1
  · simp [on_update, hh]
  · simp [on_update, hh, hray]

/-- What on_update keeps while a valid hole is hovered. -/
theorem on_update_keeps (env : Env) (mouse_pos : Vec2) (s : State) (h : Nat)
    (hhover : s.m_hover_id = (h : Int)) (hlt : h < s.sla_drain_holes.length) :
    ∃ s1, on_update env mouse_pos s = .ok s1 ∧
      s1.sla_drain_holes.length = s.sla_drain_holes.length ∧
      s1.m_hover_id = (h : Int) ∧ s1.history = s.history ∧
      s1.m_hole_before_drag = s.m_hole_before_drag := by
  cases hray : env.unproject mouse_pos with
  | none =>
    exact ⟨s, on_update_miss env mouse_pos s hray, rfl, hhover, rfl, rfl⟩
  | some hit =>
    obtain ⟨p, n⟩ := hit
    exact ⟨_, on_update_hit env mouse_pos s h _ p n hhover (List.getElem?_eq_getElem hlt) hray,
      by simp, hhover, rfl, rfl⟩

theorem drag_updates_keeps (env : Env) (moves : List Vec2) (h : Nat) :
    ∀ s : State, s.m_hover_id = (h : Int) → h < s.sla_drain_holes.length →
      ∃ s1, drag_updates env moves s = .ok s1 ∧
        s1.sla_drain_holes.length = s.sla_drain_holes.length ∧
        s1.m_hover_id = (h : Int) ∧ s1.history = s.history ∧
        s1.m_hole_before_drag = s.m_hole_before_drag := by
  induction moves with
  | nil => intro s hhover _; exact ⟨s, rfl, rfl, hhover, rfl, rfl⟩
  | cons m rest ih =>
    intro s hhover hlt
    obtain ⟨s1, e1, l1, v1, y1, b1⟩ := on_update_keeps env m s h hhover hlt
    obtain ⟨s2, e2, l2, v2, y2, b2⟩ := ih s1 v1 (by omega)
    refine ⟨s2, ?_, by omega, v2, by rw [y2, y1], by rw [b2, b1]⟩
    simp only [drag_updates, e1, e2]

/-- What on_stop_dragging does when a position other than the zero vector was
recorded and the hovered hole is elsewhere. -/
theorem on_stop_dragging_moved (s : State) (h : Nat) (x : DrainHole)
    (hhover : s.m_hover_id = (h : Int)) (hget : s.sla_drain_holes[h]? = some x)
    (hrec : s.m_hole_before_drag ≠ Vec3.Zero) (hmoved : x.pos ≠ s.m_hole_before_drag) :
    on_stop_dragging s = .ok
      { s with history := s.history ++ [
                 { name := .move_drainage_hole
                   sla_drain_holes :=
                     s.sla_drain_holes.set h { x with pos := s.m_hole_before_drag }
                   config := s.config
                   m_clipping_plane_distance := s.m_clipping_plane_distance
                   m_clipping_plane := s.m_clipping_plane
                   m_new_hole_radius := s.m_new_hole_radius
                   m_new_hole_height := s.m_new_hole_height
                   m_selected := s.m_selected
                   m_selection_empty := s.m_selection_empty }]
               m_hole_before_drag := Vec3.Zero } := by
  have hne : ¬ ((h : Int) = -1) := by omega
  have hlt : h < s.sla_drain_holes.length := by
    rcases Nat.lt_or_ge h s.sla_drain_holes.length with hl | hl
    · exact hl
    · rw [List.getElem?_eq_none hl] at hget
      cases hget
  have hx : s.sla_drain_holes.set h x = s.sla_drain_holes := by
    apply List.ext_getElem? 
    intro j
    by_cases hj : h = j
    · subst hj
      simp [List.getElem?_set, hlt, hget]
    · simp [List.getElem?_set, hj]
  simp only [on_stop_dragging, hhover, ne_eq, hne, not_false_eq_true, if_true,
    index_int_natCast, hget, hrec, hmoved, and_self, take_snapshot, update_int,
    Int.toNat_ofNat, List.getElem?_set, List.length_set, hlt, List.set_set]
  simp [hx]

/-- Drags that start away from the origin. For every hovered hole whose
position P0 at drag start is not the zero vector: on_start_dragging and any number of on_update calls take
no snapshot, and if the position P1 of the hole at drag stop differs from P0
then on_stop_dragging takes exactly one snapshot, the hole observed by that
snapshot is at P0, and the live hole is at P1 afterwards. -/
theorem drag_stop_snapshot_observes_start (env : Env) (s : State) (h : Nat) (x0 : DrainHole)
    (moves : List Vec2)
    (hhover : s.m_hover_id = (h : Int)) (hget : s.sla_drain_holes[h]? = some x0)
    (hP0 : x0.pos ≠ Vec3.Zero) :
    ∃ s1 s2, on_start_dragging s = .ok s1 ∧ drag_updates env moves s1 = .ok s2 ∧
      s2.history = s.history ∧
      ∀ x1, s2.sla_drain_holes[h]? = some x1 → x1.pos ≠ x0.pos →
        ∃ s3 snap, on_stop_dragging s2 = .ok s3 ∧ s3.history = s2.history ++ [snap] ∧
          (snap.sla_drain_holes[h]?).map DrainHole.pos = some x0.pos ∧
          (s3.sla_drain_holes[h]?).map DrainHole.pos = some x1.pos := by
  obtain ⟨s1, e1, k1, v1, y1, b1⟩ := on_start_dragging_records s h x0 hhover hget
  have hlt : h < s1.sla_drain_holes.length := by
    rw [k1]
    rcases Nat.lt_or_ge h s.sla_drain_holes.length with hl | hl
    · exact hl
    · rw [List.getElem?_eq_none hl] at hget
      cases hget
  obtain ⟨s2, e2, l2, v2, y2, b2⟩ := drag_updates_keeps env moves h s1 v1 hlt
  refine ⟨s1, s2, e1, e2, by rw [y2, y1], ?_⟩
  intro x1 hx1 hmoved
  have hb : s2.m_hole_before_drag = x0.pos := by rw [b2, b1]
  have hlt2 : h < s2.sla_drain_holes.length := by omega
  refine ⟨_, _, on_stop_dragging_moved s2 h x1 v2 hx1 (by rw [hb]; exact hP0)
    (by rw [hb]; exact hmoved), rfl, ?_, ?_⟩
  · simp [hlt2, hb]
  · simp [hx1]

theorem drag_stop_snapshot_observes_start_witness :
    State.hover_second.m_hover_id = ((1 : Nat) : Int) ∧
    State.hover_second.sla_drain_holes[1]? = some (sample_hole 1) ∧
    (sample_hole 1).pos ≠ Vec3.Zero ∧
    ∃ s1 s2, on_start_dragging State.hover_second = .ok s1 ∧
      drag_updates Env.sample [⟨5, 5⟩] s1 = .ok s2 ∧
      s2.history = State.hover_second.history ∧
      ∀ x1, s2.sla_drain_holes[1]? = some x1 → x1.pos ≠ (sample_hole 1).pos →
        ∃ s3 snap, on_stop_dragging s2 = .ok s3 ∧ s3.history = s2.history ++ [snap] ∧
          (snap.sla_drain_holes[1]?).map DrainHole.pos = some (sample_hole 1).pos ∧
          (s3.sla_drain_holes[1]?).map DrainHole.pos = some x1.pos :=
  ⟨rfl, rfl, by simp [sample_hole, Vec3.Zero],
    drag_stop_snapshot_observes_start Env.sample State.hover_second 1 (sample_hole 1) [⟨5, 5⟩]
      rfl rfl (by simp [sample_hole, Vec3.Zero])⟩

/-- C5 (the code departs from the claim). The hovered hole sits at the origin
at drag start, so the position that on_start_dragging records is the zero
vector, the very value that stands for no point touched; one on_update moves
the hole to the raycast hit plus the stick-out along the normal, which is
another point, and on_stop_dragging then takes no snapshot at all: the history
is still empty while the live hole is at the new position. -/
theorem drag_stop_from_origin_takes_no_snapshot :
    ∃ s1 s2 s3 x1, on_start_dragging State.hover_origin = .ok s1 ∧
      State.hover_origin.sla_drain_holes[0]? = some (sample_hole 0) ∧
      on_update Env.sample ⟨5, 5⟩ s1 = .ok s2 ∧
      s2.sla_drain_holes[0]? = some x1 ∧ x1.pos ≠ (sample_hole 0).pos ∧
      on_stop_dragging s2 = .ok s3 ∧
      s3.history = [] ∧ (s3.sla_drain_holes[0]?).map DrainHole.pos = some x1.pos := by
  refine ⟨_, _, _, _, rfl, rfl, rfl, rfl, ?_, rfl, rfl, rfl⟩
  simp [sample_hole, Vec3.add, Vec3.smul, Env.sample, State.hover_origin, State.hover_second,
    State.blank]

/-! ## C7: finalising a rectangle gesture -/

theorem select_point_valid (s : State) (p : Nat) (hp : p < s.sla_drain_holes.length)
    (hlen : s.m_selected.length = s.sla_drain_holes.length) :
    ∃ s1, select_point (p : Int) s = .ok s1 ∧ s1.sla_drain_holes = s.sla_drain_holes ∧
      s1.m_selected = s.m_selected.set p true := by
  refine ⟨_, select_point_index s p _ (List.getElem?_eq_getElem hp), rfl, ?_⟩
  have h0 : p + 1 - s.m_selected.length = 0 := by omega
  simp [h0]

/-- One iteration of the loop over the unobscured points. -/
theorem rectangle_step (status : EState) (s : State) (p : Nat)
    (hp : p < s.sla_drain_holes.length)
    (hlen : s.m_selected.length = s.sla_drain_holes.length) :
    ∃ s1, (if status = EState.Deselect then unselect_point (p : Int) s
           else select_point (p : Int) s) = .ok s1 ∧
      s1.sla_drain_holes = s.sla_drain_holes ∧
      s1.m_selected = s.m_selected.set p (decide (status ≠ EState.Deselect)) := by
  by_cases hs : status = EState.Deselect
  · have e1 := unselect_point_ok s p (by omega)
    rw [← if_pos hs (t := unselect_point (p : Int) s) (e := select_point (p : Int) s)] at e1
    exact ⟨_, e1, rfl, by simp [hs]⟩
  · obtain ⟨s1, e1, k1, m1⟩ := select_point_valid s p hp hlen
    exact ⟨s1, by rw [if_neg hs]; exact e1, k1, by simp [m1, hs]⟩

/-- The loop over the unobscured points writes the flag of the mode at the
holes the positions stand for and leaves every other flag alone. -/
theorem rectangle_apply_flags (status : EState) (points_idxs : List Nat) (vis : List Nat) :
    ∀ s : State, s.m_selected.length = s.sla_drain_holes.length →
      (∀ p ∈ points_idxs, p < s.sla_drain_holes.length) →
      (∀ k ∈ vis, k < points_idxs.length) →
      ∃ s1, rectangle_apply status points_idxs vis s = .ok s1 ∧
        s1.sla_drain_holes = s.sla_drain_holes ∧
        s1.m_selected.length = s.m_selected.length ∧
        (∀ j, (∃ k ∈ vis, points_idxs[k]? = some j) →
          s1.m_selected[j]? = some (decide (status ≠ EState.Deselect))) ∧
        (∀ j, ¬ (∃ k ∈ vis, points_idxs[k]? = some j) →
          s1.m_selected[j]? = s.m_selected[j]?) := by
  induction vis with
  | nil =>
    intro s _ _ _
    exact ⟨s, rfl, rfl, rfl, by simp, by simp⟩
  | cons k rest ih =>
    intro s hlen hpts hvis
    have hk : k < points_idxs.length := hvis k (List.mem_cons_self _ _)
    have hpk : points_idxs[k]? = some points_idxs[k] := List.getElem?_eq_getElem hk
    have hp : points_idxs[k] < s.sla_drain_holes.length :=
      hpts _ (List.getElem_mem hk)
    obtain ⟨s1, e1, k1, m1⟩ := rectangle_step status s points_idxs[k] hp hlen
    have hlen1 : s1.m_selected.length = s1.sla_drain_holes.length := by
      rw [m1, k1]; simpa using hlen
    obtain ⟨s2, e2, k2, l2, f2, g2⟩ := ih s1 hlen1 (by rw [k1]; exact hpts)
      (fun k' hk' => hvis k' (List.mem_cons_of_mem _ hk'))
    refine ⟨s2, ?_, by rw [k2, k1], by rw [l2, m1]; simp, ?_, ?_⟩
    · simp only [rectangle_apply, hpk, e1, e2]
    · intro j hj
      by_cases hrest : ∃ k' ∈ rest, points_idxs[k']? = some j
      · exact f2 j hrest
      · rw [g2 j hrest, m1]
        obtain ⟨k', hk', hkj⟩ := hj
        rcases List.mem_cons.mp hk' with hhead | htail
        · subst hhead
          have hjp : points_idxs[k'] = j := by
            rw [hpk] at hkj
            exact Option.some.inj hkj
          have hjl : j < s.m_selected.length := by omega
          simp [hjp, hjl]
        · exact absurd ⟨k', htail, hkj⟩ hrest
    · intro j hj
      have hrest : ¬ ∃ k' ∈ rest, points_idxs[k']? = some j := by
        rintro ⟨k', hk', hkj⟩
        exact hj ⟨k', List.mem_cons_of_mem _ hk', hkj⟩
      have hne : points_idxs[k] ≠ j := by
        intro hjp
        exact hj ⟨k, List.mem_cons_self _ _, by rw [hpk, hjp]⟩
      rw [g2 j hrest, m1]
      simp [List.getElem?_set, hne]

/-- C7. When a rectangle gesture is finalised on pointer-up (LeftUp, ShiftUp
or AltUp while the rectangle is dragging; the rectangle returns indices of
existing holes and the raycaster positions inside that answer), the event is
handled, the holes are unchanged, every hole that is outside the rectangle or
not reported unobscured keeps its previous selection flag, and every hole
reported unobscured is in the rectangle and ends selected in Select mode and
unselected in Deselect mode. -/
theorem rectangle_changes_only_visible (env : Env) (fuel : Nat) (action : SLAGizmoEventType)
    (mouse_position : Vec2) (shift_down alt_down control_down : Bool) (s : State)
    (haction : action = .LeftUp ∨ action = .ShiftUp ∨ action = .AltUp)
    (hdrag : s.m_selection_rectangle.is_dragging = true)
    (hlen : s.m_selected.length = s.sla_drain_holes.length)
    (hrect : ∀ p ∈ env.rectangle_idxs, p < s.sla_drain_holes.length)
    (hvis : ∀ k ∈ env.unobscured_idxs, k < env.rectangle_idxs.length) :
    ∃ s1, gizmo_event env fuel action mouse_position shift_down alt_down control_down s
        = .ok (true, s1) ∧
      s1.sla_drain_holes = s.sla_drain_holes ∧
      s1.m_selected.length = s.m_selected.length ∧
      (∀ j, j ∉ env.rectangle_idxs ∨ ¬ reported_unobscured env j →
        s1.m_selected[j]? = s.m_selected[j]?) ∧
      (∀ j, reported_unobscured env j → j ∈ env.rectangle_idxs ∧
        (s.m_selection_rectangle.m_state = EState.Select → s1.m_selected[j]? = some true) ∧
        (s.m_selection_rectangle.m_state = EState.Deselect → s1.m_selected[j]? = some false)) := by
  have hmem : ∀ j, reported_unobscured env j → j ∈ env.rectangle_idxs := by
    rintro j ⟨k, _, hkj⟩
    exact List.mem_iff_getElem?.mpr ⟨k, hkj⟩
  obtain ⟨s1, e1, k1, l1, f1, g1⟩ := rectangle_apply_flags s.m_selection_rectangle.m_state
    env.rectangle_idxs env.unobscured_idxs
    { s with m_selection_rectangle := s.m_selection_rectangle.stop_dragging } hlen hrect hvis
  have hall : env.rectangle_idxs.all (fun idx => decide (idx < s.sla_drain_holes.length))
      = true := by
    simpa [List.all_eq_true] using hrect
  have hev : gizmo_event env fuel action mouse_position shift_down alt_down control_down s
      = .ok (true, s1) := by
    have hnd : action ≠ .LeftDown := by
      rcases haction with h | h | h <;> rw [h] <;> decide
    simp only [gizmo_event, hnd, false_and, if_false, haction, hdrag, and_self, if_true, hall,
      e1, handled]
  refine ⟨s1, hev, k1, l1, ?_, ?_⟩
  · intro j hj
    apply g1 j
    rcases hj with hj | hj
    · exact fun hr => hj (hmem j hr)
    · exact hj
  · intro j hj
    refine ⟨hmem j hj, ?_, ?_⟩
    · intro hmode
      rw [f1 j hj, hmode]
      rfl
    · intro hmode
      rw [f1 j hj, hmode]
      rfl

theorem rectangle_changes_only_visible_witness :
    (SLAGizmoEventType.LeftUp = .LeftUp ∨ SLAGizmoEventType.LeftUp = .ShiftUp
      ∨ SLAGizmoEventType.LeftUp = .AltUp) ∧
    State.rectangle_select.m_selection_rectangle.is_dragging = true ∧
    State.rectangle_select.m_selected.length = State.rectangle_select.sla_drain_holes.length ∧
    (∀ p ∈ Env.sample.rectangle_idxs, p < State.rectangle_select.sla_drain_holes.length) ∧
    (∀ k ∈ Env.sample.unobscured_idxs, k < Env.sample.rectangle_idxs.length) ∧
    ∃ s1, gizmo_event Env.sample 1 .LeftUp ⟨9, 9⟩ false false false State.rectangle_select
        = .ok (true, s1) ∧
      s1.sla_drain_holes = State.rectangle_select.sla_drain_holes ∧
      s1.m_selected.length = State.rectangle_select.m_selected.length ∧
      (∀ j, j ∉ Env.sample.rectangle_idxs ∨ ¬ reported_unobscured Env.sample j →
        s1.m_selected[j]? = State.rectangle_select.m_selected[j]?) ∧
      (∀ j, reported_unobscured Env.sample j → j ∈ Env.sample.rectangle_idxs ∧
        (State.rectangle_select.m_selection_rectangle.m_state = EState.Select →
          s1.m_selected[j]? = some true) ∧
        (State.rectangle_select.m_selection_rectangle.m_state = EState.Deselect →
          s1.m_selected[j]? = some false)) :=
  ⟨by decide, by decide, by decide, by decide, by decide,
    rectangle_changes_only_visible Env.sample 1 .LeftUp ⟨9, 9⟩ false false false
      State.rectangle_select (by decide) (by decide) (by decide) (by decide) (by decide)⟩

/-- Holes 0 and 2 are in the rectangle and only hole 0 is unobscured: the
pointer-up selects hole 0 and leaves the occluded hole 2 and the outside
hole 1 unselected. -/
theorem rectangle_select_sample :
    ∃ s1, gizmo_event Env.sample 1 .LeftUp ⟨9, 9⟩ false false false State.rectangle_select
        = .ok (true, s1) ∧
      s1.m_selected = [true, false, false] ∧ s1.m_selection_empty = false ∧
      s1.m_selection_rectangle.m_state = EState.Off :=
  ⟨_, rfl, rfl, rfl, rfl⟩

/-! ## C6: committing a slider edit -/

/-- C6 (the code departs from the claim). The offset holds 3 when the slider
is clicked; the click frame already carries the first live value, 1, and the
stash is read from the local that the slider has just written. No snapshot is
taken in the click frame, and the single snapshot taken at release observes
the offset 1, not 3; the live value after release is 1. -/
theorem offset_stash_taken_after_slider_write :
    State.offset_three.config.hollowing_min_thickness = some 3 ∧
    ∃ s1 s2, on_render_input_window Env.sample 2 UiFrame.offset_click UiFrame.idle
        State.offset_three = .ok s1 ∧
      s1.history = [] ∧ s1.m_offset_stash = 1 ∧
      s1.config.hollowing_min_thickness = some 1 ∧
      on_render_input_window Env.sample 2 UiFrame.offset_release UiFrame.idle s1 = .ok s2 ∧
      s2.history.map (fun snap => snap.config.hollowing_min_thickness) = [some 1] ∧
      s2.history.map (fun snap => snap.name) = [SnapshotName.hollowing_parameter_change] ∧
      s2.config.hollowing_min_thickness = some 1 :=
  ⟨rfl, _, _, rfl, rfl, rfl, rfl, rfl, rfl, rfl, rfl⟩

/-- When the press frame leaves the value untouched the protocol of the
config sliders does what the claim says: no snapshot in the press and edit
frames, and the snapshot taken at release observes the offset 3 while the live
value stays 1. -/
theorem offset_commit_when_press_leaves_value :
    ∃ s1 s2 s3, on_render_input_window Env.sample 2 UiFrame.offset_press UiFrame.idle
        State.offset_three = .ok s1 ∧
      on_render_input_window Env.sample 2 UiFrame.offset_edit UiFrame.idle s1 = .ok s2 ∧
      s2.history = [] ∧ s2.config.hollowing_min_thickness = some 1 ∧
      on_render_input_window Env.sample 2 UiFrame.offset_release UiFrame.idle s2 = .ok s3 ∧
      s3.history.map (fun snap => snap.config.hollowing_min_thickness) = [some 3] ∧
      s3.config.hollowing_min_thickness = some 1 :=
  ⟨_, _, _, rfl, rfl, rfl, rfl, rfl, rfl, rfl⟩

/-- The sliders of the hole diameter and depth stash the holes before the edit
of the same frame is applied: after a click frame that already writes 5 and a
release frame, the snapshot observes the radius 2 and the live radius is 5. -/
theorem hole_stash_taken_before_edit :
    ∃ s1 s2, on_render_input_window Env.sample 2 UiFrame.diameter_click UiFrame.idle
        State.one_selected = .ok s1 ∧
      s1.history = [] ∧ s1.sla_drain_holes.map DrainHole.radius = [5] ∧
      on_render_input_window Env.sample 2 UiFrame.diameter_release UiFrame.idle s1 = .ok s2 ∧
      s2.history.map (fun snap => snap.sla_drain_holes.map DrainHole.radius) = [[2]] ∧
      s2.history.map (fun snap => snap.m_new_hole_radius) = [2] ∧
      s2.sla_drain_holes.map DrainHole.radius = [5] ∧ s2.m_new_hole_radius = 5 :=
  ⟨_, _, rfl, rfl, rfl, rfl, rfl, rfl, rfl, rfl⟩

/-! ## C11: the offset stored by update_clipping_plane -/

theorem Vec3.dot_comm (a b : Vec3) : Vec3.dot a b = Vec3.dot b a := by
  simp only [Vec3.dot]
  ring

/-- C11 (amended). For every plane normal n (the kept normal or the negated
camera direction), instance centre c, bounding radius r and clip distance d,
update_clipping_plane stores a plane whose offset equals
dot(c, n) + r - d * 2 * r, leaves the clip distance as it is and marks the
canvas dirty. -/
theorem update_clipping_plane_offset (env : Env) (keep_normal : Bool) (s : State) :
    (update_clipping_plane env keep_normal s).m_clipping_plane.offset
      = Vec3.dot (instance_center env s) (chosen_normal env keep_normal s)
        + s.m_active_instance_bb_radius
        - s.m_clipping_plane_distance * 2 * s.m_active_instance_bb_radius ∧
    (update_clipping_plane env keep_normal s).m_clipping_plane.normal
      = env.normalized (chosen_normal env keep_normal s) ∧
    (update_clipping_plane env keep_normal s).m_clipping_plane_distance
      = s.m_clipping_plane_distance ∧
    (update_clipping_plane env keep_normal s).dirty = true := by
  refine ⟨?_, rfl, rfl, rfl⟩
  simp only [update_clipping_plane, set_as_dirty, ClippingPlane.make, chosen_normal,
    instance_center]
  rw [Vec3.dot_comm]
  ring

/-- C11 (as stated, refuted). With the camera looking down the z axis, the
instance at the origin, bounding radius 10 and clip distance 0 the stored
offset is 10, while the formula of the claim gives -10. -/
theorem update_clipping_plane_offset_not_spec :
    (update_clipping_plane Env.sample false State.blank).m_clipping_plane.offset = 10 ∧
    spec_clipping_offset (chosen_normal Env.sample false State.blank)
      (instance_center Env.sample State.blank) State.blank.m_active_instance_bb_radius
      State.blank.m_clipping_plane_distance = -10 ∧
    (update_clipping_plane Env.sample false State.blank).m_clipping_plane.offset
      ≠ spec_clipping_offset (chosen_normal Env.sample false State.blank)
          (instance_center Env.sample State.blank) State.blank.m_active_instance_bb_radius
          State.blank.m_clipping_plane_distance := by
  have h1 : (update_clipping_plane Env.sample false State.blank).m_clipping_plane.offset
      = 10 := by
    simp [update_clipping_plane, set_as_dirty, ClippingPlane.make, Env.sample, State.blank,
      Vec3.dot, Vec3.add, Vec3.neg]
  have h2 : spec_clipping_offset (chosen_normal Env.sample false State.blank)
      (instance_center Env.sample State.blank) State.blank.m_active_instance_bb_radius
      State.blank.m_clipping_plane_distance = -10 := by
    simp [spec_clipping_offset, chosen_normal, instance_center, Env.sample, State.blank,
      Vec3.dot, Vec3.add, Vec3.neg]
  refine ⟨h1, h2, ?_⟩
  rw [h1, h2]
  norm_num

/-! ## C13: a left press with a modifier on a hovered point -/

/-- The first branch of gizmo_event when a valid point is hovered. -/
theorem gizmo_event_modifier_hovered (env : Env) (fuel : Nat) (mouse_position : Vec2)
    (shift_down alt_down control_down : Bool) (s : State) (h : Nat)
    (hmod : shift_down = true ∨ alt_down = true ∨ control_down = true)
    (hhover : s.m_hover_id = (h : Int)) :
    gizmo_event env fuel .LeftDown mouse_position shift_down alt_down control_down s =
      match s.m_selected[h]? with
      | none => .error .out_of_range
      | some true => handled (unselect_point (h : Int) s)
      | some false =>
        if alt_down = false then handled (select_point (h : Int) s) else .ok (true, s) := by
  have hne : ¬ ((h : Int) = -1) := by omega
  simp only [gizmo_event, hmod, and_self, if_true, hhover, hne, if_false, index_int_natCast]

/-- C13. For every left press with shift, alt or control held while a valid
point is hovered: the event is handled, no hole is added or removed, the
selection rectangle is left as it is (no gesture is started), every other
selection flag is unchanged, a selected hovered point becomes unselected, and
an unselected hovered point becomes selected unless alt is held, in which case
it stays unselected. -/
theorem modifier_click_toggles_hovered (env : Env) (fuel : Nat) (mouse_position : Vec2)
    (shift_down alt_down control_down : Bool) (s : State) (h : Nat)
    (hmod : shift_down = true ∨ alt_down = true ∨ control_down = true)
    (hhover : s.m_hover_id = (h : Int))
    (hlt : h < s.sla_drain_holes.length)
    (hlen : s.m_selected.length = s.sla_drain_holes.length) :
    ∃ s1, gizmo_event env fuel .LeftDown mouse_position shift_down alt_down control_down s
        = .ok (true, s1) ∧
      s1.sla_drain_holes = s.sla_drain_holes ∧
      s1.m_selection_rectangle = s.m_selection_rectangle ∧
      s1.m_selected.length = s.m_selected.length ∧
      (∀ j, j ≠ h → s1.m_selected[j]? = s.m_selected[j]?) ∧
      (s.m_selected[h]? = some true → s1.m_selected[h]? = some false) ∧
      (s.m_selected[h]? = some false → alt_down = false → s1.m_selected[h]? = some true) ∧
      (s.m_selected[h]? = some false → alt_down = true → s1.m_selected[h]? = some false) := by
  have hev := gizmo_event_modifier_hovered env fuel mouse_position shift_down alt_down
    control_down s h hmod hhover
  have hls : h < s.m_selected.length := by omega
  have hget : s.m_selected[h]? = some s.m_selected[h] := List.getElem?_eq_getElem hls
  cases hb : s.m_selected[h] with
  | true =>
    rw [hb] at hget
    rw [hget, unselect_point_ok s h hls] at hev
    refine ⟨_, hev, rfl, rfl, by simp, ?_, ?_, ?_, ?_⟩
    · intro j hj
      simp [List.getElem?_set, Ne.symm hj]
    · intro _
      simp [hls]
    · intro hc
      rw [hget] at hc
      cases hc
    · intro hc
      rw [hget] at hc
      cases hc
  | false =>
    rw [hb] at hget
    cases ha : alt_down with
    | false =>
      have hsel := select_point_index s h _ (List.getElem?_eq_getElem hlt)
      have h0 : h + 1 - s.m_selected.length = 0 := by omega
      rw [h0] at hsel
      simp only [List.replicate_zero, List.append_nil] at hsel
      rw [hget, ha] at hev
      simp only [if_true, hsel, handled] at hev
      refine ⟨_, hev, rfl, rfl, by simp, ?_, ?_, ?_, ?_⟩
      · intro j hj
        simp [List.getElem?_set, Ne.symm hj]
      · intro hc
        rw [hget] at hc
        cases hc
      · intro _ _
        simp [hls]
      · intro _ hc
        cases hc
    | true =>
      rw [hget, ha] at hev
      simp only [Bool.true_eq_false, if_false] at hev
      refine ⟨s, hev, rfl, rfl, rfl, fun _ _ => rfl, ?_, ?_, ?_⟩
      · intro hc
        rw [hget] at hc
        cases hc
      · intro _ hc
        cases hc
      · intro _ _
        exact hget

theorem modifier_click_toggles_hovered_witness :
    (true = true ∨ false = true ∨ false = true) ∧
    State.hover_unselected.m_hover_id = ((1 : Nat) : Int) ∧
    1 < State.hover_unselected.sla_drain_holes.length ∧
    State.hover_unselected.m_selected.length = State.hover_unselected.sla_drain_holes.length ∧
    ∃ s1, gizmo_event Env.sample 1 .LeftDown ⟨0, 0⟩ true false false State.hover_unselected
        = .ok (true, s1) ∧
      s1.sla_drain_holes = State.hover_unselected.sla_drain_holes ∧
      s1.m_selection_rectangle = State.hover_unselected.m_selection_rectangle ∧
      s1.m_selected.length = State.hover_unselected.m_selected.length ∧
      (∀ j, j ≠ 1 → s1.m_selected[j]? = State.hover_unselected.m_selected[j]?) ∧
      (State.hover_unselected.m_selected[1]? = some true → s1.m_selected[1]? = some false) ∧
      (State.hover_unselected.m_selected[1]? = some false → false = false →
        s1.m_selected[1]? = some true) ∧
      (State.hover_unselected.m_selected[1]? = some false → false = true →
        s1.m_selected[1]? = some false) :=
  ⟨by decide, rfl, by decide, by decide,
    modifier_click_toggles_hovered Env.sample 1 ⟨0, 0⟩ true false false
      State.hover_unselected 1 (by decide) rfl (by decide) (by decide)⟩

/-- A shift press on the hovered second hole selects it, an alt press leaves
it unselected, and a further shift press unselects it again. -/
theorem modifier_click_sample :
    ∃ s1 s2 s3, gizmo_event Env.sample 1 .LeftDown ⟨0, 0⟩ true false false
        State.hover_unselected = .ok (true, s1) ∧ s1.m_selected = [true, true] ∧
      gizmo_event Env.sample 1 .LeftDown ⟨0, 0⟩ false true false
        State.hover_unselected = .ok (true, s2) ∧ s2.m_selected = [true, false] ∧
      gizmo_event Env.sample 1 .LeftDown ⟨0, 0⟩ true false false s1 = .ok (true, s3) ∧
      s3.m_selected = [true, false] ∧ s3.m_selection_empty = false :=
  ⟨_, _, _, rfl, rfl, rfl, rfl, rfl, rfl, rfl⟩

/-! ## C14: a right-click on a hovered point -/

theorem unselected_holes_none_selected (holes : List DrainHole) :
    unselected_holes (List.replicate holes.length false) holes = holes := by
  induction holes with
  | nil => simp [unselected_holes]
  | cons x holes ih =>
    simp only [List.length_cons, List.replicate_succ, unselected_holes_cons_false, ih]

/-- With exactly flag h set, the retained holes are all holes but hole h. -/
theorem unselected_holes_single (holes : List DrainHole) :
    ∀ h, h < holes.length →
      unselected_holes ((List.replicate holes.length false).set h true) holes
        = holes.eraseIdx h := by
  induction holes with
  | nil => intro h hlt; simp at hlt
  | cons x holes ih =>
    intro h hlt
    cases h with
    | zero =>
      simp only [List.length_cons, List.replicate_succ, List.set_cons_zero,
        unselected_holes_cons_true, unselected_holes_none_selected, List.eraseIdx_cons_zero]
    | succ k =>
      have hk : k < holes.length := by simpa using hlt
      simp only [List.length_cons, List.replicate_succ, List.set_cons_succ,
        unselected_holes_cons_false, ih k hk, List.eraseIdx_cons_succ]

/-- The branch of gizmo_event that a right-click reaches. -/
theorem gizmo_event_RightDown (env : Env) (fuel : Nat) (mouse_position : Vec2)
    (shift_down alt_down control_down : Bool) (s : State) :
    gizmo_event env fuel .RightDown mouse_position shift_down alt_down control_down s =
      if s.m_hover_id ≠ -1 then
        match select_point NoPoints s with
        | .error e => .error e
        | .ok s1 =>
          match select_point s1.m_hover_id s1 with
          | .error e => .error e
          | .ok s2 => handled (delete_selected_points fuel s2)
      else .ok (false, s) := by
  simp [gizmo_event]

/-- The state left by a right-click on a valid hovered hole. -/
theorem gizmo_event_right_click (env : Env) (fuel : Nat) (mouse_position : Vec2)
    (shift_down alt_down control_down : Bool) (s : State) (h : Nat) (x : DrainHole)
    (hhover : s.m_hover_id = (h : Int))
    (hget : s.sla_drain_holes[h]? = some x)
    (hlen : s.m_selected.length = s.sla_drain_holes.length)
    (hsize : s.sla_drain_holes.length < UINT_MOD)
    (hfuel : s.sla_drain_holes.length < fuel) :
    gizmo_event env fuel .RightDown mouse_position shift_down alt_down control_down s
      = .ok (true,
        { take_snapshot .delete_drainage_hole
            { s with m_selected := (List.replicate s.sla_drain_holes.length false).set h true
                     m_selection_empty := false
                     m_new_hole_radius := x.radius
                     m_new_hole_height := x.height } with
          m_selected := List.replicate (s.sla_drain_holes.eraseIdx h).length false
          sla_drain_holes := s.sla_drain_holes.eraseIdx h
          m_selection_empty := true }) := by
  have hne : ¬ ((h : Int) = -1) := by omega
  have hlt : h < s.sla_drain_holes.length := by
    rcases Nat.lt_or_ge h s.sla_drain_holes.length with hl | hl
    · exact hl
    · rw [List.getElem?_eq_none hl] at hget
      cases hget
  have hsel := select_point_index
    { s with m_selected := List.replicate s.m_selected.length false
             m_selection_empty := true } h x hget
  have h0 : h + 1 - s.sla_drain_holes.length = 0 := by omega
  simp only [List.length_replicate, hlen, h0, List.replicate_zero, List.append_nil] at hsel
  have hdel := delete_selected_points_ok fuel
    { s with m_selected := (List.replicate s.sla_drain_holes.length false).set h true
             m_selection_empty := false
             m_new_hole_radius := x.radius
             m_new_hole_height := x.height } (by simp) hsize hfuel
  simp only [unselected_holes_single s.sla_drain_holes h hlt] at hdel
  simp only [hhover] at hsel
  rw [gizmo_event_RightDown]
  simp only [hhover, ne_eq, hne, not_false_eq_true, if_true, select_point_NoPoints, hlen, hsel]
  simp only [hhover] at hdel
  rw [hdel]
  simp only [handled, take_snapshot]

/-- C14. For every state with vectors of equal length (a length the 32-bit
cursor can hold): a right-click while a valid index h is hovered is handled
and removes exactly hole h whatever the previous selection was, every other
hole is retained in its original order, every selection flag ends false and
m_selection_empty true; a right-click with nothing hovered is not handled and
changes nothing. -/
theorem right_click_removes_hovered (env : Env) (fuel : Nat) (mouse_position : Vec2)
    (shift_down alt_down control_down : Bool) (s : State)
    (hlen : s.m_selected.length = s.sla_drain_holes.length)
    (hsize : s.sla_drain_holes.length < UINT_MOD)
    (hfuel : s.sla_drain_holes.length < fuel) :
    (∀ h : Nat, s.m_hover_id = (h : Int) → h < s.sla_drain_holes.length →
      ∃ s1, gizmo_event env fuel .RightDown mouse_position shift_down alt_down control_down s
          = .ok (true, s1) ∧
        s1.sla_drain_holes = s.sla_drain_holes.eraseIdx h ∧
        s1.m_selected = List.replicate s1.sla_drain_holes.length false ∧
        nothing_selected s1.m_selected ∧
        s1.m_selection_empty = true) ∧
    (s.m_hover_id = -1 →
      gizmo_event env fuel .RightDown mouse_position shift_down alt_down control_down s
        = .ok (false, s)) := by
  constructor
  · intro h hhover hlt
    refine ⟨_, gizmo_event_right_click env fuel mouse_position shift_down alt_down control_down
      s h _ hhover (List.getElem?_eq_getElem hlt) hlen hsize hfuel, rfl, rfl, ?_, rfl⟩
    intro b hb
    exact List.eq_of_mem_replicate hb
  · intro hhover
    rw [gizmo_event_RightDown]
    simp [hhover]

theorem right_click_removes_hovered_witness :
    State.four_hover_third.m_selected.length = State.four_hover_third.sla_drain_holes.length ∧
    State.four_hover_third.sla_drain_holes.length < UINT_MOD ∧
    State.four_hover_third.sla_drain_holes.length < 5 ∧
    ((∀ h : Nat, State.four_hover_third.m_hover_id = (h : Int) →
      h < State.four_hover_third.sla_drain_holes.length →
      ∃ s1, gizmo_event Env.sample 5 .RightDown ⟨0, 0⟩ false false false State.four_hover_third
          = .ok (true, s1) ∧
        s1.sla_drain_holes = State.four_hover_third.sla_drain_holes.eraseIdx h ∧
        s1.m_selected = List.replicate s1.sla_drain_holes.length false ∧
        nothing_selected s1.m_selected ∧
        s1.m_selection_empty = true) ∧
    (State.four_hover_third.m_hover_id = -1 →
      gizmo_event Env.sample 5 .RightDown ⟨0, 0⟩ false false false State.four_hover_third
        = .ok (false, State.four_hover_third))) :=
  ⟨by decide, by decide, by decide,
    right_click_removes_hovered Env.sample 5 ⟨0, 0⟩ false false false State.four_hover_third
      (by decide) (by decide) (by decide)⟩

/-- A right-click on the hovered, unselected third of the four sample holes
removes that hole and keeps the three selected ones; with nothing hovered the
right-click is not handled. -/
theorem right_click_sample :
    (∃ s1, gizmo_event Env.sample 5 .RightDown ⟨0, 0⟩ false false false State.four_hover_third
        = .ok (true, s1) ∧
      s1.sla_drain_holes = [sample_hole 0, sample_hole 1, sample_hole 3] ∧
      s1.m_selected = [false, false, false] ∧ s1.m_selection_empty = true) ∧
    gizmo_event Env.sample 5 .RightDown ⟨0, 0⟩ false false false State.four_holes
      = .ok (false, State.four_holes) :=
  ⟨⟨_, rfl, rfl, rfl, rfl⟩, rfl⟩

/-! ## C15: the Delete key -/

/-- The branch of gizmo_event that the Delete key reaches. -/
theorem gizmo_event_Delete (env : Env) (fuel : Nat) (mouse_position : Vec2)
    (shift_down alt_down control_down : Bool) (s : State) :
    gizmo_event env fuel .Delete mouse_position shift_down alt_down control_down s
      = handled (delete_selected_points fuel s) := by
  simp [gizmo_event]

/-- C15 (amended). On a Delete-key event, whatever is hovered, the selection is
left as it is and all selected holes are deleted: the event is handled,
exactly the holes whose flag was false remain, in their original order (a
hovered hole that is not selected is retained, previously selected holes are
removed), every flag ends false and m_selection_empty true. -/
theorem delete_key_removes_selected (env : Env) (fuel : Nat) (mouse_position : Vec2)
    (shift_down alt_down control_down : Bool) (s : State)
    (hlen : s.m_selected.length = s.sla_drain_holes.length)
    (hsize : s.sla_drain_holes.length < UINT_MOD)
    (hfuel : s.sla_drain_holes.length < fuel) :
    ∃ s1, gizmo_event env fuel .Delete mouse_position shift_down alt_down control_down s
        = .ok (true, s1) ∧
      s1.sla_drain_holes = unselected_holes s.m_selected s.sla_drain_holes ∧
      s1.m_selected = List.replicate s1.sla_drain_holes.length false ∧
      s1.m_selection_empty = true ∧
      s1.m_hover_id = s.m_hover_id := by
  have hev := gizmo_event_Delete env fuel mouse_position shift_down alt_down control_down s
  rw [delete_selected_points_ok fuel s hlen hsize hfuel] at hev
  exact ⟨_, hev, rfl, rfl, rfl, rfl⟩

theorem delete_key_removes_selected_witness :
    State.hover_unselected.m_selected.length = State.hover_unselected.sla_drain_holes.length ∧
    State.hover_unselected.sla_drain_holes.length < UINT_MOD ∧
    State.hover_unselected.sla_drain_holes.length < 3 ∧
    ∃ s1, gizmo_event Env.sample 3 .Delete ⟨0, 0⟩ false false false State.hover_unselected
        = .ok (true, s1) ∧
      s1.sla_drain_holes = unselected_holes State.hover_unselected.m_selected
        State.hover_unselected.sla_drain_holes ∧
      s1.m_selected = List.replicate s1.sla_drain_holes.length false ∧
      s1.m_selection_empty = true ∧
      s1.m_hover_id = State.hover_unselected.m_hover_id :=
  ⟨by decide, by decide, by decide,
    delete_key_removes_selected Env.sample 3 ⟨0, 0⟩ false false false State.hover_unselected
      (by decide) (by decide) (by decide)⟩

/-- C15 (as stated, refuted). The first of two holes is selected and the
second one is hovered; the Delete key removes the first hole, which was
selected, and retains the hovered second hole. -/
theorem delete_key_keeps_hovered :
    State.hover_unselected.m_hover_id = 1 ∧
    State.hover_unselected.sla_drain_holes = [sample_hole 0, sample_hole 1] ∧
    State.hover_unselected.m_selected = [true, false] ∧
    ∃ s1, gizmo_event Env.sample 3 .Delete ⟨0, 0⟩ false false false State.hover_unselected
        = .ok (true, s1) ∧
      s1.sla_drain_holes = [sample_hole 1] ∧
      s1.sla_drain_holes ≠ State.hover_unselected.sla_drain_holes.eraseIdx 1 := by
  refine ⟨rfl, rfl, rfl, _, rfl, ?_⟩
  decide

/-! ## C16: a left press on empty space with a selection -/

/-- C16. For every left press with no modifier, no rectangle gesture active,
nothing hovered and a non-empty selection (m_selection_empty is false): the
event is handled, every selection flag becomes false and m_selection_empty
true, and nothing else changes; in particular the hole collection,
m_wait_for_up_event and the history are as before and the result does not
depend on the raycast. -/
theorem press_on_empty_space_clears_selection (env : Env) (fuel : Nat) (mouse_position : Vec2)
    (s : State)
    (hhover : s.m_hover_id = -1)
    (hrect : s.m_selection_rectangle.is_dragging = false)
    (hsel : s.m_selection_empty = false) :
    gizmo_event env fuel .LeftDown mouse_position false false false s
      = .ok (true, { s with m_selected := List.replicate s.m_selected.length false
                            m_selection_empty := true }) ∧
    nothing_selected (List.replicate s.m_selected.length false) := by
  constructor
  · simp [gizmo_event, hhover, hrect, hsel, select_point_NoPoints, handled]
  · intro b hb
    exact List.eq_of_mem_replicate hb

theorem press_on_empty_space_clears_selection_witness :
    State.four_holes.m_hover_id = -1 ∧
    State.four_holes.m_selection_rectangle.is_dragging = false ∧
    State.four_holes.m_selection_empty = false ∧
    gizmo_event Env.sample 1 .LeftDown ⟨5, 5⟩ false false false State.four_holes
      = .ok (true, { State.four_holes with
          m_selected := List.replicate State.four_holes.m_selected.length false
          m_selection_empty := true }) ∧
    nothing_selected (List.replicate State.four_holes.m_selected.length false) :=
  ⟨rfl, rfl, rfl,
    press_on_empty_space_clears_selection Env.sample 1 ⟨5, 5⟩ State.four_holes rfl rfl rfl⟩

/-! ## C17: no intersection -/

/-- No intersection while the cached flag is true. When the raycast reports
no intersection: a left press without modifier with nothing hovered and
m_selection_empty true is reported not handled
and leaves the whole state (holes, selection, m_wait_for_up_event, history) as
it was, and on_update returns with the whole state as it was. -/
theorem no_intersection_changes_nothing (env : Env) (fuel : Nat) (mouse_position : Vec2)
    (s : State)
    (hray : env.unproject mouse_position = none) :
    (s.m_hover_id = -1 → s.m_selection_empty = true →
      gizmo_event env fuel .LeftDown mouse_position false false false s = .ok (false, s)) ∧
    on_update env mouse_position s = .ok s := by
  constructor
  · intro hhover hempty
    cases hd : s.m_selection_rectangle.is_dragging
    · simp [gizmo_event, hhover, hempty, hd, hray]
    · simp [gizmo_event, hd]
  · exact on_update_miss env mouse_position s hray

theorem no_intersection_changes_nothing_witness :
    Env.miss.unproject ⟨5, 5⟩ = none ∧
    ((State.one_hole.m_hover_id = -1 → State.one_hole.m_selection_empty = true →
      gizmo_event Env.miss 1 .LeftDown ⟨5, 5⟩ false false false State.one_hole
        = .ok (false, State.one_hole)) ∧
    on_update Env.miss ⟨5, 5⟩ State.one_hole = .ok State.one_hole) :=
  ⟨rfl, no_intersection_changes_nothing Env.miss 1 ⟨5, 5⟩ State.one_hole rfl⟩

/-- A drag update of the hovered second hole without intersection returns the
state as it was. -/
theorem on_update_miss_sample :
    on_update Env.miss ⟨5, 5⟩ State.hover_second = .ok State.hover_second :=
  rfl

/-! ## C19: stopping a drag without movement -/

/-- C19. When on_stop_dragging runs with a valid hovered hole whose position
equals the position recorded at drag start, or with nothing hovered, no
snapshot is taken and the hole collection is unchanged: the only write is the
reset of the recorded position. -/
theorem stop_dragging_without_movement (s : State) :
    (∀ (h : Nat) (x : DrainHole), s.m_hover_id = (h : Int) → s.sla_drain_holes[h]? = some x →
      x.pos = s.m_hole_before_drag →
      on_stop_dragging s = .ok { s with m_hole_before_drag := Vec3.Zero }) ∧
    (s.m_hover_id = -1 →
      on_stop_dragging s = .ok { s with m_hole_before_drag := Vec3.Zero }) := by
  constructor
  · intro h x hhover hget hsame
    have hne : ¬ ((h : Int) = -1) := by omega
    simp [on_stop_dragging, hhover, hne, index_int_natCast, hget, hsame]
  · intro hhover
    simp [on_stop_dragging, hhover]

/-- A press and release on the hovered second hole without movement: start
and stop of the drag take no snapshot and leave the holes as they were. -/
theorem stop_dragging_without_movement_sample :
    ∃ s1 s2, on_start_dragging State.hover_second = .ok s1 ∧
      on_stop_dragging s1 = .ok s2 ∧ s2.history = [] ∧
      s2.sla_drain_holes = State.hover_second.sla_drain_holes ∧
      on_stop_dragging State.one_hole = .ok State.one_hole :=
  ⟨_, _, rfl, rfl, rfl, rfl, rfl⟩

theorem stop_dragging_without_movement_witness :
    State.drag_started.m_hover_id = ((1 : Nat) : Int) ∧
    State.drag_started.sla_drain_holes[1]? = some (sample_hole 1) ∧
    (sample_hole 1).pos = State.drag_started.m_hole_before_drag ∧
    on_stop_dragging State.drag_started
      = .ok { State.drag_started with m_hole_before_drag := Vec3.Zero } :=
  ⟨rfl, rfl, rfl,
    (stop_dragging_without_movement State.drag_started).1 1 (sample_hole 1) rfl rfl rfl⟩

/-! ## C12: the size of the hole placed after a click on a hole -/

/-- The sizes of the hole placed after a click on hole i and a clearing of the
selection: the radius is the radius of hole i, the height is the height of
hole i plus HoleStickOutLength. -/
theorem placement_after_click_sizes (env : Env) (fuel : Nat) (mouse_position : Vec2)
    (s : State) (i : Nat) (x : DrainHole) (hit normal : Vec3)
    (hget : s.sla_drain_holes[i]? = some x)
    (hhover : s.m_hover_id = -1)
    (hrect : s.m_selection_rectangle.is_dragging = false)
    (hray : env.unproject mouse_position = some (hit, normal)) :
    ∃ s1 s2 s3 placed, select_point (i : Int) s = .ok s1 ∧
      select_point NoPoints s1 = .ok s2 ∧
      gizmo_event env fuel .LeftDown mouse_position false false false s2 = .ok (true, s3) ∧
      s3.sla_drain_holes = s.sla_drain_holes ++ [placed] ∧
      placed.radius = x.radius ∧
      placed.height = x.height + env.HoleStickOutLength :=
  ⟨_, _, _, _, select_point_index s i x hget, select_point_NoPoints _,
    gizmo_event_placement env fuel mouse_position _ hit normal hhover rfl hrect hray,
    rfl, rfl, rfl⟩

/-- C12 (the code departs from the claim). Hole 0 has radius 3 and height 7;
it is selected by select_point(0), a left press on empty space clears the
selection, and the next left press places a hole: the placed hole has radius 3
and height 8, because the placement adds HoleStickOutLength to
m_new_hole_height, which select_point had set to the full height of hole 0. -/
theorem placed_hole_height_grows :
    State.wide_hole.sla_drain_holes.map DrainHole.radius = [3] ∧
    State.wide_hole.sla_drain_holes.map DrainHole.height = [7] ∧
    ∃ s1 s2 s3, select_point 0 State.wide_hole = .ok s1 ∧
      gizmo_event Env.sample 1 .LeftDown ⟨5, 5⟩ false false false s1 = .ok (true, s2) ∧
      s2.m_selected = [false] ∧ s2.m_selection_empty = true ∧
      s2.sla_drain_holes = State.wide_hole.sla_drain_holes ∧
      gizmo_event Env.sample 1 .LeftDown ⟨5, 5⟩ false false false s2 = .ok (true, s3) ∧
      s3.sla_drain_holes.map DrainHole.radius = [3, 3] ∧
      s3.sla_drain_holes.map DrainHole.height = [7, 8] := by
  refine ⟨rfl, rfl, _, _, _, rfl, rfl, rfl, rfl, rfl, rfl, rfl, ?_⟩
  simp only [set_as_dirty, take_snapshot, State.wide_hole, State.blank, Env.sample,
    List.map_cons, List.map_nil, List.cons_append, List.nil_append]
  norm_num

/-! ## C20: what the snapshot of a drag observes of the hole -/

/-- While a valid hole is hovered, on_update keeps its radius and height. -/
theorem on_update_keeps_size (env : Env) (mouse_pos : Vec2) (s : State) (h : Nat)
    (x : DrainHole) (hhover : s.m_hover_id = (h : Int))
    (hget : s.sla_drain_holes[h]? = some x) :
    ∃ s1 x1, on_update env mouse_pos s = .ok s1 ∧ s1.sla_drain_holes[h]? = some x1 ∧
      x1.radius = x.radius ∧ x1.height = x.height ∧
      s1.m_hover_id = (h : Int) ∧ s1.history = s.history ∧
      s1.m_hole_before_drag = s.m_hole_before_drag := by
  have hlt : h < s.sla_drain_holes.length := by
    rcases Nat.lt_or_ge h s.sla_drain_holes.length with hl | hl
    · exact hl
    · rw [List.getElem?_eq_none hl] at hget
      cases hget
  cases hray : env.unproject mouse_pos with
  | none =>
    exact ⟨s, x, on_update_miss env mouse_pos s hray, hget, rfl, rfl, hhover, rfl, rfl⟩
  | some hit =>
    obtain ⟨p, n⟩ := hit
    exact ⟨_, { pos := Vec3.add p (Vec3.smul env.HoleStickOutLength n), normal := Vec3.neg n,
                radius := x.radius, height := x.height },
      on_update_hit env mouse_pos s h x p n hhover hget hray,
      by simp [hlt], rfl, rfl, hhover, rfl, rfl⟩

theorem drag_updates_keeps_size (env : Env) (moves : List Vec2) (h : Nat) :
    ∀ (s : State) (x : DrainHole), s.m_hover_id = (h : Int) → s.sla_drain_holes[h]? = some x →
      ∃ s1 x1, drag_updates env moves s = .ok s1 ∧ s1.sla_drain_holes[h]? = some x1 ∧
        x1.radius = x.radius ∧ x1.height = x.height ∧
        s1.m_hover_id = (h : Int) ∧ s1.history = s.history ∧
        s1.m_hole_before_drag = s.m_hole_before_drag := by
  induction moves with
  | nil => intro s x hhover hget; exact ⟨s, x, rfl, hget, rfl, rfl, hhover, rfl, rfl⟩
  | cons m rest ih =>
    intro s x hhover hget
    obtain ⟨s1, x1, e1, g1, r1, t1, v1, y1, b1⟩ := on_update_keeps_size env m s h x hhover hget
    obtain ⟨s2, x2, e2, g2, r2, t2, v2, y2, b2⟩ := ih s1 x1 v1 g1
    refine ⟨s2, x2, ?_, g2, by rw [r2, r1], by rw [t2, t1], v2, by rw [y2, y1], by rw [b2, b1]⟩
    simp only [drag_updates, e1, e2]

/-- What the snapshot of a drag observes of the dragged hole, for a start
position other than the zero vector: the position, radius and height of the
hole at drag start, and the normal that the hole has at drag stop. -/
theorem drag_stop_snapshot_fields (env : Env) (s : State) (h : Nat) (x0 : DrainHole)
    (moves : List Vec2)
    (hhover : s.m_hover_id = (h : Int)) (hget : s.sla_drain_holes[h]? = some x0)
    (hP0 : x0.pos ≠ Vec3.Zero) :
    ∃ s1 s2 x1, on_start_dragging s = .ok s1 ∧ drag_updates env moves s1 = .ok s2 ∧
      s2.sla_drain_holes[h]? = some x1 ∧
      (x1.pos ≠ x0.pos →
        ∃ s3 snap, on_stop_dragging s2 = .ok s3 ∧ s3.history = s.history ++ [snap] ∧
          snap.sla_drain_holes[h]? = some
            { pos := x0.pos, normal := x1.normal, radius := x0.radius, height := x0.height }) := by
  obtain ⟨s1, e1, k1, v1, y1, b1⟩ := on_start_dragging_records s h x0 hhover hget
  obtain ⟨s2, x1, e2, g2, r2, t2, v2, y2, b2⟩ :=
    drag_updates_keeps_size env moves h s1 x0 v1 (by rw [k1]; exact hget)
  refine ⟨s1, s2, x1, e1, e2, g2, ?_⟩
  intro hmoved
  have hb : s2.m_hole_before_drag = x0.pos := by rw [b2, b1]
  have hlt2 : h < s2.sla_drain_holes.length := by
    rcases Nat.lt_or_ge h s2.sla_drain_holes.length with hl | hl
    · exact hl
    · rw [List.getElem?_eq_none hl] at g2
      cases g2
  refine ⟨_, _, on_stop_dragging_moved s2 h x1 v2 g2 (by rw [hb]; exact hP0)
    (by rw [hb]; exact hmoved), by rw [y2, y1], ?_⟩
  simp [hlt2, hb, r2, t2]

/-- C20 (the code departs from the claim). The hovered hole starts at
(1, 0, 0) with normal (1, 0, 0); one on_update with a raycast hit moves it and
overwrites its normal with the negated facet normal; on_stop_dragging rolls
back the position only, so the hole observed by the single snapshot has the
start position, radius and height but the normal of the drag stop, and
differs from the hole as it was at drag start. -/
theorem drag_snapshot_keeps_new_normal :
    ∃ s1 s2 s3 start live snap observed,
      State.hover_tilted.sla_drain_holes[0]? = some start ∧
      on_start_dragging State.hover_tilted = .ok s1 ∧
      on_update Env.sample ⟨5, 5⟩ s1 = .ok s2 ∧
      s2.sla_drain_holes[0]? = some live ∧ live.pos ≠ start.pos ∧
      on_stop_dragging s2 = .ok s3 ∧
      s3.history = [snap] ∧ snap.sla_drain_holes[0]? = some observed ∧
      observed.pos = start.pos ∧ observed.radius = start.radius ∧
      observed.height = start.height ∧
      observed.normal = live.normal ∧ observed.normal ≠ start.normal ∧
      observed ≠ start := by
  have hmoved : Vec3.add ⟨1, 2, 3⟩ (Vec3.smul Env.sample.HoleStickOutLength ⟨0, 0, 1⟩)
      ≠ (⟨1, 0, 0⟩ : Vec3) := by
    simp [Env.sample, Vec3.add, Vec3.smul]
  have hrec : (⟨1, 0, 0⟩ : Vec3) ≠ Vec3.Zero := by
    simp [Vec3.Zero]
  refine ⟨_, _, _, _, _, _, _, rfl, rfl, rfl, rfl, hmoved,
    on_stop_dragging_moved _ 0 _ rfl rfl hrec hmoved, rfl, rfl, rfl, rfl, rfl, rfl, ?_, ?_⟩
  · simp [State.hover_tilted, State.blank, Vec3.neg]
  · simp [State.hover_tilted, State.blank, Vec3.neg]

/-! ## C18: live edits of the hole sliders -/

/-- The loop of the edited case resizes the holes at the listed indices whose
flag is set and leaves every other hole as it is. -/
theorem edit_selected_holes_spec (radius height : ℚ) (sel : List Bool) (idxs : List Nat) :
    ∀ holes : List DrainHole, (∀ i ∈ idxs, i < holes.length) →
      ∃ res, edit_selected_holes radius height sel idxs holes = .ok res ∧
        res.length = holes.length ∧
        ∀ j x, holes[j]? = some x →
          res[j]? = some (if j ∈ idxs ∧ sel[j]? = some true then x.resized radius height
                          else x) := by
  induction idxs with
  | nil =>
    intro holes _
    exact ⟨holes, rfl, rfl, by intro j x hx; simpa using hx⟩
  | cons i rest ih =>
    intro holes hidx
    have hi : i < holes.length := hidx i (List.mem_cons_self _ _)
    have hrest : ∀ k ∈ rest, k < holes.length := fun k hk => hidx k (List.mem_cons_of_mem _ hk)
    by_cases hsel : sel[i]? = some true
    · obtain ⟨res, e, l, f⟩ := ih (holes.set i (holes[i].resized radius height))
        (by simpa using hrest)
      refine ⟨res, ?_, by simpa using l, ?_⟩
      · simp only [edit_selected_holes, hsel, if_true, List.getElem?_eq_getElem hi]
        exact e
      · intro j x hx
        by_cases hji : j = i
        · subst hji
          have hx' : holes[j] = x := by
            rw [List.getElem?_eq_getElem hi] at hx
            exact Option.some.inj hx
          have hset : (holes.set j (holes[j].resized radius height))[j]?
              = some (x.resized radius height) := by
            simp [hi, hx']
          rw [f j _ hset]
          simp [hsel, DrainHole.resized]
        · have hset : (holes.set i (holes[i].resized radius height))[j]? = some x := by
            simpa [List.getElem?_set, Ne.symm hji] using hx
          rw [f j x hset]
          simp [hji]
    · obtain ⟨res, e, l, f⟩ := ih holes hrest
      refine ⟨res, ?_, l, ?_⟩
      · simp only [edit_selected_holes, hsel, if_false]
        exact e
      · intro j x hx
        rw [f j x hx]
        by_cases hji : j = i
        · subst hji
          simp [hsel]
        · simp [hji]

/-- A pass in which only the hole sliders report something is the code of
the hole sliders. -/
theorem render_pass_hole_sliders (env : Env) (fuel : Nat) (diameter depth : SliderFrame)
    (s : State) :
    render_pass env fuel (UiFrame.hole_sliders diameter depth) s =
      match render_hole_sliders env (UiFrame.hole_sliders diameter depth)
          { s with m_enable_hollowing :=
              get_config_option s.config.hollowing_enable env.preset_hollowing_enable } with
      | .error e => .error e
      | .ok s1 => .ok (false, false, s1) := by
  simp [render_pass, render_config_sliders, UiFrame.hole_sliders, UiFrame.idle,
    SliderFrame.idle, SliderFrame.apply]

theorem on_render_input_window_hole_sliders (env : Env) (fuel : Nat)
    (diameter depth : SliderFrame) (ui_again : UiFrame) (s : State) :
    on_render_input_window env fuel (UiFrame.hole_sliders diameter depth) ui_again s =
      render_hole_sliders env (UiFrame.hole_sliders diameter depth)
        { s with m_enable_hollowing :=
            get_config_option s.config.hollowing_enable env.preset_hollowing_enable } := by
  simp only [on_render_input_window, render_pass_hole_sliders]
  cases render_hole_sliders env (UiFrame.hole_sliders diameter depth)
      { s with m_enable_hollowing :=
          get_config_option s.config.hollowing_enable env.preset_hollowing_enable } with
  | error e => rfl
  | ok s1 => simp

/-- The code of the hole sliders in a frame of a live edit without release,
while m_selection_empty is false. -/
theorem render_hole_sliders_edit (env : Env) (ui : UiFrame) (s : State)
    (hsel : s.m_selection_empty = false)
    (hed : (ui.hole_diameter_slider.edited || ui.hole_depth_slider.edited) = true)
    (hrel : (ui.hole_diameter_slider.released || ui.hole_depth_slider.released) = false) :
    render_hole_sliders env ui s =
      match edit_selected_holes
          (ui.hole_diameter_slider.apply (if s.m_new_hole_radius > 20 then 20
            else s.m_new_hole_radius))
          (ui.hole_depth_slider.apply (s.m_new_hole_height - env.HoleStickOutLength)
            + env.HoleStickOutLength)
          s.m_selected (List.range s.m_selected.length) s.sla_drain_holes with
      | .error e => .error e
      | .ok holes => .ok
        { s with
          m_new_hole_radius := ui.hole_diameter_slider.apply
            (if s.m_new_hole_radius > 20 then 20 else s.m_new_hole_radius)
          m_new_hole_height := ui.hole_depth_slider.apply
            (s.m_new_hole_height - env.HoleStickOutLength) + env.HoleStickOutLength
          m_holes_stash :=
            if (ui.hole_diameter_slider.clicked || ui.hole_depth_slider.clicked) = true
            then s.sla_drain_holes else s.m_holes_stash
          sla_drain_holes := holes } := by
  by_cases hc : s.m_new_hole_radius > 20 <;>
  cases hcl : (ui.hole_diameter_slider.clicked || ui.hole_depth_slider.clicked) <;>
  simp only [render_hole_sliders, hsel, hed, hrel, hc, hcl, if_true, if_false,
    Bool.false_eq_true]

/-- The code of the hole sliders while m_selection_empty is true: only the
two slider values are written. -/
theorem render_hole_sliders_inert (env : Env) (ui : UiFrame) (s : State)
    (hsel : s.m_selection_empty = true) :
    render_hole_sliders env ui s = .ok
      { s with
        m_new_hole_radius := ui.hole_diameter_slider.apply
          (if s.m_new_hole_radius > 20 then 20 else s.m_new_hole_radius)
        m_new_hole_height := ui.hole_depth_slider.apply
          (s.m_new_hole_height - env.HoleStickOutLength) + env.HoleStickOutLength } := by
  by_cases hc : s.m_new_hole_radius > 20 <;>
  simp only [render_hole_sliders, hsel, hc, if_true, if_false, Bool.true_eq_false]

/-- The hole sliders in terms of the cached flag. In a frame in which only
the hole radius/height sliders report something, on vectors of equal length: during a live edit (edited, not
released) with m_selection_empty false no snapshot is taken, every selected
hole gets radius m_new_hole_radius and height m_new_hole_height, every
unselected hole keeps its radius and height and every hole keeps its position
and normal; when m_selection_empty is true, whatever the sliders report
(press, edit or release), no hole is changed and no snapshot is taken. -/
theorem hole_slider_edit_resizes_selected (env : Env) (fuel : Nat)
    (diameter depth : SliderFrame) (ui_again : UiFrame) (s : State)
    (hlen : s.m_selected.length = s.sla_drain_holes.length) :
    (s.m_selection_empty = false → (diameter.edited || depth.edited) = true →
      (diameter.released || depth.released) = false →
      ∃ s1, on_render_input_window env fuel (UiFrame.hole_sliders diameter depth) ui_again s
          = .ok s1 ∧
        s1.history = s.history ∧ s1.m_selected = s.m_selected ∧
        s1.sla_drain_holes.length = s.sla_drain_holes.length ∧
        ∀ (j : Nat) (x : DrainHole), s.sla_drain_holes[j]? = some x →
          s1.sla_drain_holes[j]? = some
            (if s.m_selected[j]? = some true
              then x.resized s1.m_new_hole_radius s1.m_new_hole_height
              else x)) ∧
    (s.m_selection_empty = true →
      ∃ s1, on_render_input_window env fuel (UiFrame.hole_sliders diameter depth) ui_again s
          = .ok s1 ∧
        s1.sla_drain_holes = s.sla_drain_holes ∧ s1.history = s.history ∧
        s1.m_selected = s.m_selected) := by
  constructor
  · intro hsel hed hrel
    have hidx : ∀ i ∈ List.range s.m_selected.length, i < s.sla_drain_holes.length := by
      intro i hi
      rw [← hlen]
      exact List.mem_range.mp hi
    obtain ⟨res, e, l, f⟩ := edit_selected_holes_spec
      ((UiFrame.hole_sliders diameter depth).hole_diameter_slider.apply
        (if s.m_new_hole_radius > 20 then 20 else s.m_new_hole_radius))
      ((UiFrame.hole_sliders diameter depth).hole_depth_slider.apply
        (s.m_new_hole_height - env.HoleStickOutLength) + env.HoleStickOutLength)
      s.m_selected (List.range s.m_selected.length) s.sla_drain_holes hidx
    have hev := on_render_input_window_hole_sliders env fuel diameter depth ui_again s
    rw [render_hole_sliders_edit env (UiFrame.hole_sliders diameter depth)
      { s with m_enable_hollowing :=
          get_config_option s.config.hollowing_enable env.preset_hollowing_enable }
      hsel hed hrel] at hev
    simp only [e] at hev
    refine ⟨_, hev, rfl, rfl, l, ?_⟩
    intro j x hx
    rw [f j x hx]
    by_cases hj : s.m_selected[j]? = some true
    · have hjl : j < s.m_selected.length := by
        rcases Nat.lt_or_ge j s.m_selected.length with hl | hl
        · exact hl
        · rw [List.getElem?_eq_none hl] at hj
          cases hj
      simp [hj, hjl, DrainHole.resized]
    · simp [hj]
  · intro hsel
    have hev := on_render_input_window_hole_sliders env fuel diameter depth ui_again s
    rw [render_hole_sliders_inert env (UiFrame.hole_sliders diameter depth)
      { s with m_enable_hollowing :=
          get_config_option s.config.hollowing_enable env.preset_hollowing_enable }
      hsel] at hev
    exact ⟨_, hev, rfl, rfl, rfl⟩

theorem hole_slider_edit_resizes_selected_witness :
    State.second_selected.m_selected.length = State.second_selected.sla_drain_holes.length ∧
    ((State.second_selected.m_selection_empty = false →
      (SliderFrame.edit_to_five.edited || SliderFrame.idle.edited) = true →
      (SliderFrame.edit_to_five.released || SliderFrame.idle.released) = false →
      ∃ s1, on_render_input_window Env.sample 1
          (UiFrame.hole_sliders SliderFrame.edit_to_five SliderFrame.idle) UiFrame.idle
          State.second_selected = .ok s1 ∧
        s1.history = State.second_selected.history ∧
        s1.m_selected = State.second_selected.m_selected ∧
        s1.sla_drain_holes.length = State.second_selected.sla_drain_holes.length ∧
        ∀ (j : Nat) (x : DrainHole), State.second_selected.sla_drain_holes[j]? = some x →
          s1.sla_drain_holes[j]? = some
            (if State.second_selected.m_selected[j]? = some true
              then x.resized s1.m_new_hole_radius s1.m_new_hole_height
              else x)) ∧
    (State.second_selected.m_selection_empty = true →
      ∃ s1, on_render_input_window Env.sample 1
          (UiFrame.hole_sliders SliderFrame.edit_to_five SliderFrame.idle) UiFrame.idle
          State.second_selected = .ok s1 ∧
        s1.sla_drain_holes = State.second_selected.sla_drain_holes ∧
        s1.history = State.second_selected.history ∧
        s1.m_selected = State.second_selected.m_selected)) :=
  ⟨by decide, hole_slider_edit_resizes_selected Env.sample 1 SliderFrame.edit_to_five
    SliderFrame.idle UiFrame.idle State.second_selected (by decide)⟩

/-- A live edit of the diameter to 5 resizes the selected second hole only;
with nothing selected, a slider that reports click, edit and release at once
changes no hole and takes no snapshot. -/
theorem hole_slider_edit_sample :
    (∃ s1, on_render_input_window Env.sample 1
        (UiFrame.hole_sliders SliderFrame.edit_to_five SliderFrame.idle) UiFrame.idle
        State.second_selected = .ok s1 ∧
      s1.sla_drain_holes.map DrainHole.radius = [2, 5] ∧
      s1.sla_drain_holes.map DrainHole.pos = [⟨0, 0, 0⟩, ⟨1, 0, 0⟩] ∧ s1.history = []) ∧
    (∃ s1, on_render_input_window Env.sample 1
        (UiFrame.hole_sliders SliderFrame.all_at_once SliderFrame.all_at_once) UiFrame.idle
        State.hover_second = .ok s1 ∧
      s1.sla_drain_holes = State.hover_second.sla_drain_holes ∧ s1.history = []) :=
  ⟨⟨_, rfl, rfl, rfl, rfl⟩, ⟨_, rfl, rfl, rfl⟩⟩

/-! ## C21: the print object lookup -/

/-- Without a matching print object the loop ends with the index advanced by
the number of print objects. -/
theorem lookup_loop_no_match (model_object_id : Nat) (objects : List SLAPrintObject) :
    ∀ idx : Int, (∀ po ∈ objects, po.model_object_id ≠ model_object_id) →
      lookup_loop model_object_id objects idx = idx + (objects.length : Int) := by
  induction objects with
  | nil => intro idx _; simp [lookup_loop]
  | cons po rest ih =>
    intro idx hno
    have hpo : po.model_object_id ≠ model_object_id := hno po (List.mem_cons_self _ _)
    have hrest := ih (idx + 1) (fun q hq => hno q (List.mem_cons_of_mem _ hq))
    simp only [lookup_loop, hpo, if_false, hrest, List.length_cons]
    push_cast
    ring

/-- With a matching print object the loop ends at the position of the first
match, counted from the index after the start value. -/
theorem lookup_loop_match (model_object_id : Nat) (objects : List SLAPrintObject) :
    ∀ idx : Int, (∃ po ∈ objects, po.model_object_id = model_object_id) →
      ∃ (k : Nat) (found : SLAPrintObject),
        lookup_loop model_object_id objects idx = idx + 1 + (k : Int) ∧
        objects[k]? = some found ∧ found.model_object_id = model_object_id ∧
        ∀ j, j < k → ∀ q, objects[j]? = some q → q.model_object_id ≠ model_object_id := by
  induction objects with
  | nil => intro idx h; obtain ⟨po, hpo, _⟩ := h; cases hpo
  | cons po rest ih =>
    intro idx h
    by_cases hpo : po.model_object_id = model_object_id
    · refine ⟨0, po, ?_, by simp, hpo, ?_⟩
      · simp [lookup_loop, hpo]
      · intro j hj
        omega
    · have hrest : ∃ q ∈ rest, q.model_object_id = model_object_id := by
        obtain ⟨q, hq, hqid⟩ := h
        rcases List.mem_cons.mp hq with hhead | htail
        · subst hhead
          exact absurd hqid hpo
        · exact ⟨q, htail, hqid⟩
      obtain ⟨k, found, e, g, hid, hfirst⟩ := ih (idx + 1) hrest
      refine ⟨k + 1, found, ?_, by simpa using g, hid, ?_⟩
      · simp only [lookup_loop, hpo, if_false, e]
        push_cast
        ring
      · intro j hj q hq
        cases j with
        | zero =>
          simp only [List.getElem?_cons_zero, Option.some.injEq] at hq
          subst hq
          exact hpo
        | succ i =>
          simp only [List.getElem?_cons_succ] at hq
          exact hfirst i (by omega) q hq

/-- When the search runs and a print object matches, the index is set to the
first matching print object. -/
theorem print_object_lookup_match (objects : List SLAPrintObject) (model_object_id : Nat)
    (s : State)
    (hruns : s.m_print_object_idx < 0 ∨ (objects.length : Int) ≠ s.m_print_objects_count)
    (hmatch : ∃ po ∈ objects, po.model_object_id = model_object_id) :
    ∃ found, looked_up_print_object objects (print_object_lookup objects model_object_id s)
        = some found ∧ found.model_object_id = model_object_id := by
  obtain ⟨k, found, e, g, hid, _⟩ := lookup_loop_match model_object_id objects (-1) hmatch
  refine ⟨found, ?_, hid⟩
  have hk : (-1 : Int) + 1 + (k : Int) = (k : Int) := by ring
  simp only [looked_up_print_object, print_object_lookup, hruns, if_true, e, hk]
  simp [g]

/-- C21 (the code departs from the claim). The cached index is -1, the list
holds one print object, of model object 7, and the active model object has
id 5: no print object matches, yet the lookup leaves m_print_object_idx at 0,
the last index, and the print object taken at that index belongs to model
object 7. -/
theorem print_object_lookup_without_match :
    State.blank.m_print_object_idx = -1 ∧
    (∀ po ∈ [SLAPrintObject.mk 7], po.model_object_id ≠ 5) ∧
    (print_object_lookup [SLAPrintObject.mk 7] 5 State.blank).m_print_object_idx = 0 ∧
    (print_object_lookup [SLAPrintObject.mk 7] 5 State.blank).m_print_object_idx ≠ -1 ∧
    looked_up_print_object [SLAPrintObject.mk 7]
      (print_object_lookup [SLAPrintObject.mk 7] 5 State.blank) = some (SLAPrintObject.mk 7) := by
  refine ⟨rfl, by decide, rfl, by decide, rfl⟩

/-- In general, when the search runs on a list of n > 0 print objects of which
none matches, the index ends at n - 1, and it ends at -1 only for the empty
list. -/
theorem print_object_lookup_no_match (objects : List SLAPrintObject) (model_object_id : Nat)
    (s : State)
    (hruns : s.m_print_object_idx < 0 ∨ (objects.length : Int) ≠ s.m_print_objects_count)
    (hno : ∀ po ∈ objects, po.model_object_id ≠ model_object_id) :
    (print_object_lookup objects model_object_id s).m_print_object_idx
      = (objects.length : Int) - 1 := by
  simp only [print_object_lookup, hruns, if_true,
    lookup_loop_no_match model_object_id objects (-1) hno]
  ring

/-! ## C4, C17, C18: presses and slider releases under a stale m_selection_empty -/

/-- The stale state is reached from one unselected hole by select_point(0)
followed by reload_cache(); in it nothing is selected, nothing is hovered and
no rectangle gesture is active. -/
theorem stale_flag_reached :
    (∃ s1, select_point 0 State.one_hole = .ok s1 ∧ reload_cache s1 = State.stale_flag) ∧
    nothing_selected State.stale_flag.m_selected ∧
    State.stale_flag.m_selection_empty = false ∧
    State.stale_flag.m_hover_id = -1 ∧
    State.stale_flag.m_selection_rectangle.is_dragging = false := by
  refine ⟨⟨_, rfl, rfl⟩, ?_, rfl, rfl, rfl⟩
  intro b hb
  simpa [State.stale_flag, State.one_hole] using hb

/-- C4 (the code departs from the claim). After select_point(0) and
reload_cache() no hole is selected, nothing is hovered and no rectangle
gesture is active; a left press without modifier whose raycast hits is
reported handled but appends no hole and takes no snapshot: it only sets
m_selection_empty, because reload_cache left that flag false. The same press
repeated then places the hole. -/
theorem press_with_stale_flag_places_no_hole :
    (∃ s1, select_point 0 State.one_hole = .ok s1 ∧ reload_cache s1 = State.stale_flag) ∧
    State.stale_flag.m_selected = [false] ∧
    State.stale_flag.m_hover_id = -1 ∧
    State.stale_flag.m_selection_rectangle.is_dragging = false ∧
    Env.sample.unproject ⟨5, 5⟩ = some (⟨1, 2, 3⟩, ⟨0, 0, 1⟩) ∧
    ∃ s2 s3, gizmo_event Env.sample 1 .LeftDown ⟨5, 5⟩ false false false State.stale_flag
        = .ok (true, s2) ∧
      s2.sla_drain_holes = State.stale_flag.sla_drain_holes ∧
      s2.m_selected = [false] ∧ s2.history = [] ∧ s2.m_wait_for_up_event = false ∧
      s2.m_selection_empty = true ∧
      gizmo_event Env.sample 1 .LeftDown ⟨5, 5⟩ false false false s2 = .ok (true, s3) ∧
      s3.sla_drain_holes.length = 2 ∧ s3.m_selected = [false, false] :=
  ⟨⟨_, rfl, rfl⟩, rfl, rfl, rfl, rfl, _, _, rfl, rfl, rfl, rfl, rfl, rfl, rfl, rfl, rfl⟩

/-- C17 (the code departs from the claim). After select_point(0) and
reload_cache() no hole is selected and nothing is hovered; with a raycast that
reports no intersection, a left press without modifier is reported handled
and writes m_selection_empty, so the state is not the one before the press. -/
theorem press_with_stale_flag_and_no_intersection :
    (∃ s1, select_point 0 State.one_hole = .ok s1 ∧ reload_cache s1 = State.stale_flag) ∧
    State.stale_flag.m_selected = [false] ∧
    State.stale_flag.m_hover_id = -1 ∧
    Env.miss.unproject ⟨5, 5⟩ = none ∧
    ∃ s2, gizmo_event Env.miss 1 .LeftDown ⟨5, 5⟩ false false false State.stale_flag
        = .ok (true, s2) ∧
      State.stale_flag.m_selection_empty = false ∧ s2.m_selection_empty = true ∧
      s2 ≠ State.stale_flag := by
  refine ⟨⟨_, rfl, rfl⟩, rfl, rfl, rfl, _, rfl, rfl, rfl, ?_⟩
  intro h
  have hflag := congrArg State.m_selection_empty h
  revert hflag
  decide

/-- C18 (the code departs from the claim). After select_point(0) and
reload_cache() no hole is selected; a frame in which the diameter slider
reports its release then takes a snapshot, and that snapshot observes the
stashed hole vector, which is empty, in place of the one hole of the object. -/
theorem release_with_stale_flag_takes_snapshot :
    (∃ s1, select_point 0 State.one_hole = .ok s1 ∧ reload_cache s1 = State.stale_flag) ∧
    State.stale_flag.m_selected = [false] ∧
    State.stale_flag.history = [] ∧
    ∃ s2, on_render_input_window Env.sample 1 UiFrame.diameter_release UiFrame.idle
        State.stale_flag = .ok s2 ∧
      s2.history.map (fun snap => snap.name) = [SnapshotName.change_drainage_hole_diameter] ∧
      s2.history.map (fun snap => snap.sla_drain_holes) = [[]] ∧
      s2.sla_drain_holes = State.stale_flag.sla_drain_holes :=
  ⟨⟨_, rfl, rfl⟩, rfl, rfl, _, rfl, rfl, rfl, rfl⟩

end GLGizmoHollow
